import Mathlib

/-!
# wf-shell: the auto-hiding panel window

A shallow embedding of `src/util/wf-autohide-window.cpp` (class
`WayfireAutohidingWindow`) together with theorems about its hide/show
scheduler, its autohide reference counter and its position policy.

Conventions of the embedding

* C++ `int` is `Int` (the counter and the pixel values stay far away from the
  limits of a 32 bit integer; signed overflow is undefined in C++ anyway).
* `double` values of the transition are exact rationals.
* The window is a record; every member function is a function on that record.
  Calls into the toolkit are appended to the `calls` log of the record, the
  wall clock is the field `now` (milliseconds).
* A `sigc::connection` is an optional timeout identifier; the GLib main loop's
  set of live timeout sources is the field `timeouts`.
-/

namespace WfShell

/-! ## Constants and enumerations -/

/-- Modelled from the spec: the macro `WF_WINDOW_POSITION_TOP` of the header
`wf-autohide-window.hpp`, the symbolic name of the top edge. -/
def WF_WINDOW_POSITION_TOP : String := "top"

/-- Modelled from the spec: the macro `WF_WINDOW_POSITION_BOTTOM` of the header
`wf-autohide-window.hpp`, the symbolic name of the bottom edge. -/
def WF_WINDOW_POSITION_BOTTOM : String := "bottom"

/-- The `#define AUTOHIDE_SHOW_DELAY 300` of the source file. -/
def AUTOHIDE_SHOW_DELAY : Int := 300

/-- The enumeration `GtkLayerShellEdge` of gtk-layer-shell. -/
inductive GtkLayerShellEdge where
  | LEFT
  | RIGHT
  | TOP
  | BOTTOM
  deriving DecidableEq, Repr

/-- The enumeration `zwf_output_v2_hotspot_edge` of the wayfire-shell protocol. -/
inductive HotspotEdge where
  | TOP
  | BOTTOM
  | LEFT
  | RIGHT
  deriving DecidableEq, Repr

/-! ## Collaborators -/

/-- A (non-null) `wf_option`: the identity of the shared option object and the
string it currently holds. -/
structure wf_option where
  id : Nat
  value : String
  deriving DecidableEq, Repr

/-- Modelled from the spec: the type `wf_duration` of wf-config, a transition
between `start_value` and `end_value` over `duration` milliseconds that began at
`start_time`. -/
structure wf_duration where
  start_value : ℚ
  end_value : ℚ
  duration : Int
  start_time : Nat
  deriving DecidableEq, Repr

/-- Modelled from the spec: `wf_duration::running()`, true iff the elapsed time is
below the configured duration. -/
def wf_duration.running (t : wf_duration) (now : Nat) : Bool :=
  decide ((now : Int) - (t.start_time : Int) < t.duration)

/-- Modelled from the spec: `wf_duration::progress()`, the end value once the
transition is over and the linear interpolation before. -/
def wf_duration.progress (t : wf_duration) (now : Nat) : ℚ :=
  if t.running now then
    t.start_value + (t.end_value - t.start_value)
      * (((now : Int) - (t.start_time : Int) : Int) : ℚ) / (t.duration : ℚ)
  else t.end_value

/-- Modelled from the spec: `wf_duration::start(from, to)`, which resets the start
time to now and stores both values. -/
def wf_duration.start (t : wf_duration) (x y : ℚ) (now : Nat) : wf_duration :=
  { t with start_value := x, end_value := y, start_time := now }

/-- Conversion of a `double` to `int`: truncation towards zero. -/
def double_to_int (q : ℚ) : Int := Int.tdiv q.num (q.den : Int)

/-- The function `std::round`: nearest integer, halfway cases away from zero. -/
def std_round (q : ℚ) : Int :=
  if 0 ≤ q then Int.tdiv (2 * q.num + q.den) (2 * (q.den : Int))
  else Int.tdiv (2 * q.num - q.den) (2 * (q.den : Int))

/-- What a timeout source does when it fires. -/
inductive TimerAction where
  | m_do_hide
  | m_do_show
  | uncertain_hide
  deriving DecidableEq, Repr

/-- A live timeout source of the GLib main loop. -/
structure Timeout where
  id : Nat
  interval : Int
  action : TimerAction
  due : Nat
  deriving DecidableEq, Repr

/-- A `sigc::connection`: empty, or a handle on a timeout source. -/
abbrev sigc_connection := Option Nat

/-- A hotspot created with `zwf_output_v2_create_hotspot`. -/
structure Hotspot where
  edge : HotspotEdge
  threshold : Int
  timeout : Int
  deriving DecidableEq, Repr

/-- The calls the window makes into the toolkit and the protocol. -/
inductive ToolkitCall where
  | set_anchor (edge : GtkLayerShellEdge) (anchor_to_edge : Bool)
  | set_margin (edge : GtkLayerShellEdge) (margin_size : Int)
  | set_exclusive_zone (zone : Int)
  | queue_draw
  | create_hotspot (h : Hotspot)
  | destroy_hotspot (h : Hotspot)
  deriving DecidableEq, Repr

/-! ## The window -/

/-- The members of `WayfireAutohidingWindow` together with the part of the
environment its member functions read and write. `m_position` is never null: the
constructor sets it and `set_position` refuses a null option. -/
structure Window where
  now : Nat
  allocated_height : Int
  output_valid : Bool
  m_position : wf_option
  subscribed : List Nat
  transition : wf_duration
  last_zone : Int
  has_auto_exclusive_zone : Bool
  autohide_counter : Int
  edge_hotspot : Option Hotspot
  panel_hotspot : Option Hotspot
  last_hotspot_height : Int
  pending_show : sigc_connection
  pending_hide : sigc_connection
  timeouts : List Timeout
  next_timeout : Nat
  anchor_top : Bool
  anchor_bottom : Bool
  calls : List ToolkitCall
  deriving DecidableEq, Repr

/-! ## Position -/

/-- The static function `check_position`: the position itself when it is valid and
the top position otherwise. -/
def check_position (position : String) : String :=
  if position = WF_WINDOW_POSITION_TOP then WF_WINDOW_POSITION_TOP
  else if position = WF_WINDOW_POSITION_BOTTOM then WF_WINDOW_POSITION_BOTTOM
  else WF_WINDOW_POSITION_TOP

/-- The line `check_position` writes to `std::cerr`, if it writes one. -/
def check_position_cerr (position : String) : Option String :=
  if position = WF_WINDOW_POSITION_TOP then none
  else if position = WF_WINDOW_POSITION_BOTTOM then none
  else some "Bad position in config file, defaulting to top"

/-- The static function `get_anchor_edge`; `none` stands for reaching
`assert(false)`. -/
def get_anchor_edge (position : String) : Option GtkLayerShellEdge :=
  let position := check_position position
  if position = WF_WINDOW_POSITION_TOP then some GtkLayerShellEdge.TOP
  else if position = WF_WINDOW_POSITION_BOTTOM then some GtkLayerShellEdge.BOTTOM
  else none

/-- The toolkit call `gtk_layer_set_anchor`. -/
def gtk_layer_set_anchor (edge : GtkLayerShellEdge) (anchor_to_edge : Bool) (w : Window) : Window :=
  let w := { w with calls := w.calls ++ [ToolkitCall.set_anchor edge anchor_to_edge] }
  match edge with
  | GtkLayerShellEdge.TOP => { w with anchor_top := anchor_to_edge }
  | GtkLayerShellEdge.BOTTOM => { w with anchor_bottom := anchor_to_edge }
  | _ => w

/-! ## Timers -/

/-- The test `connection.connected()`: the handle refers to a live timeout. -/
def connected (w : Window) (c : sigc_connection) : Bool :=
  match c with
  | none => false
  | some id => w.timeouts.any (fun t => t.id == id)

/-- Removal of the timeout source with the given identifier. -/
def remove_timeout (id : Nat) (ts : List Timeout) : List Timeout :=
  ts.filter (fun t => t.id != id)

/-- The call `pending_show.disconnect()`. -/
def disconnect_show (w : Window) : Window :=
  match w.pending_show with
  | none => w
  | some id => { w with timeouts := remove_timeout id w.timeouts, pending_show := none }

/-- The call `pending_hide.disconnect()`. -/
def disconnect_hide (w : Window) : Window :=
  match w.pending_hide with
  | none => w
  | some id => { w with timeouts := remove_timeout id w.timeouts, pending_hide := none }

/-- The call `Glib::signal_timeout().connect(slot, interval)`: a new source is
added to the main loop and a connection to it is returned. -/
def signal_timeout_connect (action : TimerAction) (interval : Int) (w : Window) :
    Window × sigc_connection :=
  ({ w with
      timeouts := w.timeouts ++
        [{ id := w.next_timeout, interval := interval, action := action,
           due := w.now + interval.toNat }],
      next_timeout := w.next_timeout + 1 },
   some w.next_timeout)

/-! ## Margin, hide and show -/

/-- The member function `update_margin`. -/
def update_margin (w : Window) : Window × Bool :=
  if w.transition.running w.now then
    let target_y := std_round (w.transition.progress w.now)
    match get_anchor_edge w.m_position.value with
    | some edge =>
      ({ w with calls := w.calls ++ [ToolkitCall.set_margin edge target_y,
                                      ToolkitCall.queue_draw] }, true)
    | none => (w, true)
  else (w, false)

/-- The member function `m_do_hide`. -/
def m_do_hide (w : Window) : Window × Bool :=
  let start := double_to_int (w.transition.progress w.now)
  let w := { w with transition := w.transition.start (start : ℚ)
                      ((-w.allocated_height : Int) : ℚ) w.now }
  ((update_margin w).1, false)

/-- The member function `schedule_hide`. -/
def schedule_hide (delay : Int) (w : Window) : Window :=
  let w := disconnect_show w
  if delay = 0 then (m_do_hide w).1
  else if !connected w w.pending_hide then
    let r := signal_timeout_connect TimerAction.m_do_hide delay w
    { r.1 with pending_hide := r.2 }
  else w

/-- The member function `m_do_show`. -/
def m_do_show (w : Window) : Window × Bool :=
  let start := double_to_int (w.transition.progress w.now)
  let w := { w with transition := w.transition.start (start : ℚ) 0 w.now }
  ((update_margin w).1, false)

/-- The member function `schedule_show`. -/
def schedule_show (delay : Int) (w : Window) : Window :=
  let w := disconnect_hide w
  if delay = 0 then (m_do_show w).1
  else if !connected w w.pending_show then
    let r := signal_timeout_connect TimerAction.m_do_show delay w
    { r.1 with pending_show := r.2 }
  else w

/-! ## The autohide counter -/

/-- The member function `is_autohide`: the counter converted to `bool`. -/
def is_autohide (w : Window) : Bool := w.autohide_counter != 0

/-- The member function `increase_autohide`. -/
def increase_autohide (w : Window) : Window :=
  let w := { w with autohide_counter := w.autohide_counter + 1 }
  if w.autohide_counter = 1 then schedule_hide 0 w else w

/-- The member function `decrease_autohide`. -/
def decrease_autohide (w : Window) : Window :=
  let w := { w with autohide_counter := max (w.autohide_counter - 1) 0 }
  if w.autohide_counter = 0 then schedule_show 0 w else w

/-! ## Hotspots -/

/-- The callback `edge_callbacks->on_enter`. -/
def edge_on_enter (w : Window) : Window := schedule_show 0 w

/-- The callback `edge_callbacks->on_leave`. -/
def edge_on_leave (w : Window) : Window := w

/-- The callback `panel_callbacks->on_enter`. -/
def panel_on_enter (w : Window) : Window :=
  if connected w w.pending_hide then disconnect_hide w else w

/-- The callback `panel_callbacks->on_leave`. -/
def panel_on_leave (w : Window) : Window :=
  if is_autohide w then schedule_hide 300 w else w

/-- The destruction of a hotspot, if there is one. -/
def destroy_hotspot (h : Option Hotspot) (w : Window) : Window :=
  match h with
  | none => w
  | some x => { w with calls := w.calls ++ [ToolkitCall.destroy_hotspot x] }

/-- The member function `setup_hotspot`. -/
def setup_hotspot (w : Window) : Window :=
  if !w.output_valid then w
  else if w.allocated_height = w.last_hotspot_height then w
  else
    let w := { w with last_hotspot_height := w.allocated_height }
    let w := destroy_hotspot w.edge_hotspot w
    let w := destroy_hotspot w.panel_hotspot w
    let position := check_position w.m_position.value
    let edge := if position = WF_WINDOW_POSITION_TOP then HotspotEdge.TOP
                else HotspotEdge.BOTTOM
    let e : Hotspot := { edge := edge, threshold := 20, timeout := AUTOHIDE_SHOW_DELAY }
    let p : Hotspot := { edge := edge, threshold := w.allocated_height, timeout := 0 }
    { w with
        edge_hotspot := some e,
        panel_hotspot := some p,
        calls := w.calls ++ [ToolkitCall.create_hotspot e, ToolkitCall.create_hotspot p] }

/-! ## Position changes -/

/-- The member function `m_show_uncertain`. -/
def m_show_uncertain (w : Window) : Window :=
  let w := schedule_show 16 w
  if is_autohide w then
    let r := signal_timeout_connect TimerAction.uncertain_hide 1000 w
    { r.1 with pending_hide := r.2 }
  else w

/-- The member function `update_position`. -/
def update_position (w : Window) : Window :=
  let w := gtk_layer_set_anchor GtkLayerShellEdge.TOP false w
  let w := gtk_layer_set_anchor GtkLayerShellEdge.BOTTOM false w
  let w := match get_anchor_edge w.m_position.value with
    | some anchor => gtk_layer_set_anchor anchor true w
    | none => w
  let w := { w with transition :=
    { w.transition with start_value := ((-w.allocated_height : Int) : ℚ),
                        end_value := ((-w.allocated_height : Int) : ℚ) } }
  let w := setup_hotspot w
  m_show_uncertain w

/-- The member function `set_position`; the argument `none` is a null option, and
the result `none` is the failure of `assert(position)`. -/
def set_position (position : Option wf_option) (w : Window) : Option Window :=
  match position with
  | none => none
  | some p =>
    let w := { w with subscribed := w.subscribed.filter (fun i => i != w.m_position.id) }
    let w := { w with m_position := p }
    let w := { w with subscribed := w.subscribed ++ [w.m_position.id] }
    some (update_position w)

/-- The member function `set_animation_duration`; the argument is the value of the
duration option in milliseconds. -/
def set_animation_duration (duration : Int) (w : Window) : Window :=
  let current := w.transition.progress w.now
  let end_ := w.transition.end_value
  let t : wf_duration :=
    { start_value := 0, end_value := 0, duration := duration, start_time := w.now }
  { w with transition := t.start current end_ w.now }

/-- The member function `set_auto_exclusive_zone`. -/
def set_auto_exclusive_zone (has_zone : Bool) (w : Window) : Window :=
  let w := { w with has_auto_exclusive_zone := has_zone }
  let target_zone := if has_zone then w.allocated_height else 0
  if w.last_zone ≠ target_zone then
    { w with calls := w.calls ++ [ToolkitCall.set_exclusive_zone target_zone],
             last_zone := target_zone }
  else w

/-! ## The window as a state machine -/

/-- The window right after its constructor ran on an output: position is the
static option holding the top position, no handler is subscribed, the animation
lasts 300 ms, and nothing is pending. Modelled from the spec: the default member
initialisers of the class declaration in `wf-autohide-window.hpp` (counter 0, no
hotspot, no zone applied, a transition resting at 0). -/
def constructor (output_valid : Bool) (allocated_height : Int) : Window :=
  set_animation_duration 300
    { now := 0,
      allocated_height := allocated_height,
      output_valid := output_valid,
      m_position := { id := 0, value := WF_WINDOW_POSITION_TOP },
      subscribed := [],
      transition := { start_value := 0, end_value := 0, duration := 0, start_time := 0 },
      last_zone := 0,
      has_auto_exclusive_zone := false,
      autohide_counter := 0,
      edge_hotspot := none,
      panel_hotspot := none,
      last_hotspot_height := -1,
      pending_show := none,
      pending_hide := none,
      timeouts := [],
      next_timeout := 0,
      anchor_top := false,
      anchor_bottom := false,
      calls := [] }

/-- The callback of a timeout source. Every callback of the window returns
`false`, so the source is destroyed after the call. -/
def run_action (a : TimerAction) (w : Window) : Window :=
  match a with
  | TimerAction.m_do_hide => (m_do_hide w).1
  | TimerAction.m_do_show => (m_do_show w).1
  | TimerAction.uncertain_hide => schedule_hide 0 w

/-- The main loop dispatches the timeout source `id`: its callback runs, the
source is destroyed and the connections to it become empty. -/
def fire_timeout (id : Nat) (w : Window) : Window :=
  match w.timeouts.find? (fun t => t.id == id) with
  | none => w
  | some t =>
    let w := run_action t.action w
    { w with
        timeouts := remove_timeout id w.timeouts,
        pending_show := if w.pending_show = some id then none else w.pending_show,
        pending_hide := if w.pending_hide = some id then none else w.pending_hide }

/-- The handler of `signal_size_allocate`, run when the toolkit gives the window
a new height. -/
def on_size_allocate (height : Int) (w : Window) : Window :=
  let w := { w with allocated_height := height }
  let w := set_auto_exclusive_zone w.has_auto_exclusive_zone w
  setup_hotspot w

/-- The option object `id` takes a new value: the window sees the value if the
object is its position option, and `m_position_changed` runs if the window is
subscribed to the object. -/
def on_option_updated (id : Nat) (value : String) (w : Window) : Window :=
  let w := if w.m_position.id = id then
      { w with m_position := { w.m_position with value := value } } else w
  if id ∈ w.subscribed then update_position w else w

/-- Everything that can happen to a window. -/
inductive Event where
  | set_position (position : wf_option)
  | option_updated (id : Nat) (value : String)
  | set_animation_duration (duration : Int)
  | set_auto_exclusive_zone (has_zone : Bool)
  | increase_autohide
  | decrease_autohide
  | schedule_hide (delay : Int)
  | schedule_show (delay : Int)
  | size_allocate (height : Int)
  | draw
  | edge_enter
  | edge_leave
  | panel_enter
  | panel_leave
  | timeout (id : Nat)
  | advance (ms : Nat)
  deriving DecidableEq, Repr

/-- One event. A hotspot event needs the hotspot to exist, and a timeout fires no
earlier than it is due. -/
def step (w : Window) (e : Event) : Window :=
  match e with
  | Event.set_position p => (set_position (some p) w).getD w
  | Event.option_updated id v => on_option_updated id v w
  | Event.set_animation_duration d => set_animation_duration d w
  | Event.set_auto_exclusive_zone b => set_auto_exclusive_zone b w
  | Event.increase_autohide => increase_autohide w
  | Event.decrease_autohide => decrease_autohide w
  | Event.schedule_hide d => schedule_hide d w
  | Event.schedule_show d => schedule_show d w
  | Event.size_allocate h => on_size_allocate h w
  | Event.draw => (update_margin w).1
  | Event.edge_enter => if w.edge_hotspot.isSome then edge_on_enter w else w
  | Event.edge_leave => if w.edge_hotspot.isSome then edge_on_leave w else w
  | Event.panel_enter => if w.panel_hotspot.isSome then panel_on_enter w else w
  | Event.panel_leave => if w.panel_hotspot.isSome then panel_on_leave w else w
  | Event.timeout id =>
    if w.timeouts.any (fun t => t.id == id && decide (t.due ≤ w.now)) then fire_timeout id w
    else w
  | Event.advance ms => { w with now := w.now + ms }

/-- A sequence of events, oldest first. -/
def run (es : List Event) (w : Window) : Window := es.foldl step w

/-- The states a window can be in: those some sequence of events leads to from a
freshly constructed window. -/
def Reachable (w : Window) : Prop :=
  ∃ (output_valid : Bool) (height : Int) (es : List Event),
    w = run es (constructor output_valid height)

/-- The calls of `increase_autohide` and `decrease_autohide`. -/
inductive AutohideCall where
  | increase
  | decrease
  deriving DecidableEq, Repr

/-- One call on the autohide counter. -/
def autohide_call (w : Window) (c : AutohideCall) : Window :=
  match c with
  | AutohideCall.increase => increase_autohide w
  | AutohideCall.decrease => decrease_autohide w

/-- A sequence of calls on the autohide counter, oldest first. -/
def autohide_calls (cs : List AutohideCall) (w : Window) : Window :=
  cs.foldl autohide_call w

/-! ## The invariant of the scheduler -/

/-- The part of the window the scheduler works on: the live timeouts, the next
identifier, both connections and the autohide counter. -/
def timer_view (w : Window) :
    List Timeout × Nat × sigc_connection × sigc_connection × Int :=
  (w.timeouts, w.next_timeout, w.pending_show, w.pending_hide, w.autohide_counter)

/-- Every live timeout got its identifier before `next_timeout`. -/
def timers_fresh (w : Window) : Prop :=
  ∀ t ∈ w.timeouts, t.id < w.next_timeout

/-- The timeout is the fallback hide of `m_show_uncertain`: it fires after
1000 ms and runs `schedule_hide(0)`. -/
def is_fallback_hide (t : Timeout) : Prop :=
  t.action = TimerAction.uncertain_hide ∧ t.interval = 1000

/-- When both connections are connected, autohide is active and the pending hide
is the fallback hide of `m_show_uncertain`. -/
def both_pending_only_fallback (w : Window) : Prop :=
  connected w w.pending_show = true → connected w w.pending_hide = true →
    w.autohide_counter ≠ 0
    ∧ ∀ t ∈ w.timeouts, w.pending_hide = some t.id → is_fallback_hide t

/-- The invariant of the scheduler. -/
def scheduler_invariant (w : Window) : Prop :=
  timers_fresh w ∧ 0 ≤ w.autohide_counter ∧ both_pending_only_fallback w

/-! ## Ownership of the timeouts -/

/-- A timeout that hides the window when it fires. -/
def is_hide_timer (t : Timeout) : Bool := t.action != TimerAction.m_do_show

/-- A timeout that shows the window when it fires. -/
def is_show_timer (t : Timeout) : Bool := t.action == TimerAction.m_do_show

/-- The timeout is the one a connection of its own direction refers to. -/
def timer_owned (w : Window) (t : Timeout) : Prop :=
  (w.pending_show = some t.id ∧ is_show_timer t = true)
  ∨ (w.pending_hide = some t.id ∧ is_hide_timer t = true)

/-- No live timeout is orphaned: identifiers are not repeated and every live
timeout is owned by a connection. -/
def no_orphans (w : Window) : Prop :=
  (w.timeouts.map Timeout.id).Nodup ∧ ∀ t ∈ w.timeouts, timer_owned w t

/-! ## The outcome of `set_position` and the timers of a position change -/

/-- The member function `set_position` together with the window as the call
leaves it: `Except.ok` holds the window at the end of the body, `Except.error`
the window at the moment `assert(position)` fails. -/
def set_position_outcome (position : Option wf_option) (w : Window) :
    Except Window Window :=
  match position with
  | none => Except.error w
  | some p =>
    let w := { w with subscribed := w.subscribed.filter (fun i => i != w.m_position.id) }
    let w := { w with m_position := p }
    let w := { w with subscribed := w.subscribed ++ [w.m_position.id] }
    Except.ok (update_position w)

/-- The fallback hide `m_show_uncertain` arms: 1000 ms, callback
`schedule_hide(0)`. -/
def fallback_hide (id now : Nat) : Timeout :=
  { id := id, interval := 1000, action := TimerAction.uncertain_hide, due := now + 1000 }

/-- The show `schedule_show(16)` arms. -/
def settle_show (id now : Nat) : Timeout :=
  { id := id, interval := 16, action := TimerAction.m_do_show, due := now + 16 }

/-- The two connections never refer to the same timeout, and the identifiers they
hold were handed out before `next_timeout`. -/
def connections_distinct (w : Window) : Prop :=
  (∀ i, w.pending_show = some i → i < w.next_timeout)
  ∧ (∀ i, w.pending_hide = some i → i < w.next_timeout)
  ∧ (∀ i, w.pending_show = some i → w.pending_hide ≠ some i)

/-! ## Basic facts about the operations -/

theorem update_margin_frame (w : Window) :
    (update_margin w).1 = { w with calls := (update_margin w).1.calls } := by
  unfold update_margin
  split
  · split <;> rfl
  · rfl

theorem m_do_hide_eq (w : Window) :
    (m_do_hide w).1 =
      { w with
          transition := w.transition.start ((double_to_int (w.transition.progress w.now) : Int) : ℚ)
            ((-w.allocated_height : Int) : ℚ) w.now,
          calls := (m_do_hide w).1.calls } := by
  unfold m_do_hide
  simp only []
  rw [update_margin_frame]

theorem bottom_ne_top : WF_WINDOW_POSITION_BOTTOM ≠ WF_WINDOW_POSITION_TOP := by decide

theorem check_position_spec (s : String) :
    check_position s
      = if s = WF_WINDOW_POSITION_TOP ∨ s = WF_WINDOW_POSITION_BOTTOM then s
        else WF_WINDOW_POSITION_TOP := by
  unfold check_position
  by_cases h1 : s = WF_WINDOW_POSITION_TOP
  · simp [h1]
  · by_cases h2 : s = WF_WINDOW_POSITION_BOTTOM
    · simp [h2, bottom_ne_top]
    · simp [h1, h2]

theorem get_anchor_edge_spec (s : String) :
    get_anchor_edge s = some GtkLayerShellEdge.TOP
      ∨ get_anchor_edge s = some GtkLayerShellEdge.BOTTOM := by
  unfold get_anchor_edge check_position
  by_cases h1 : s = WF_WINDOW_POSITION_TOP
  · simp [h1]
  · by_cases h2 : s = WF_WINDOW_POSITION_BOTTOM
    · simp [h2, bottom_ne_top]
    · simp [h1, h2]

theorem m_do_show_eq (w : Window) :
    (m_do_show w).1 =
      { w with
          transition := w.transition.start ((double_to_int (w.transition.progress w.now) : Int) : ℚ)
            0 w.now,
          calls := (m_do_show w).1.calls } := by
  unfold m_do_show
  simp only []
  rw [update_margin_frame]

theorem schedule_hide_zero (w : Window) :
    schedule_hide 0 w = (m_do_hide (disconnect_show w)).1 := by
  simp [schedule_hide]

theorem schedule_show_zero (w : Window) :
    schedule_show 0 w = (m_do_show (disconnect_hide w)).1 := by
  simp [schedule_show]

theorem disconnect_show_frame (w : Window) :
    disconnect_show w =
      { w with timeouts := (disconnect_show w).timeouts, pending_show := none } := by
  unfold disconnect_show
  cases h : w.pending_show with
  | none => cases w; simp_all
  | some id => rfl

theorem disconnect_hide_frame (w : Window) :
    disconnect_hide w =
      { w with timeouts := (disconnect_hide w).timeouts, pending_hide := none } := by
  unfold disconnect_hide
  cases h : w.pending_hide with
  | none => cases w; simp_all
  | some id => rfl

theorem schedule_hide_zero_eq (w : Window) :
    schedule_hide 0 w =
      { w with
          timeouts := (disconnect_show w).timeouts,
          pending_show := none,
          transition := w.transition.start ((double_to_int (w.transition.progress w.now) : Int) : ℚ)
            ((-w.allocated_height : Int) : ℚ) w.now,
          calls := (schedule_hide 0 w).calls } := by
  rw [schedule_hide_zero, m_do_hide_eq]
  generalize (m_do_hide (disconnect_show w)).1.calls = cs
  rw [disconnect_show_frame]

theorem schedule_show_zero_eq (w : Window) :
    schedule_show 0 w =
      { w with
          timeouts := (disconnect_hide w).timeouts,
          pending_hide := none,
          transition := w.transition.start ((double_to_int (w.transition.progress w.now) : Int) : ℚ)
            0 w.now,
          calls := (schedule_show 0 w).calls } := by
  rw [schedule_show_zero, m_do_show_eq]
  generalize (m_do_show (disconnect_hide w)).1.calls = cs
  rw [disconnect_hide_frame]

theorem disconnect_show_of_none (w : Window) (h : w.pending_show = none) :
    disconnect_show w = w := by
  simp [disconnect_show, h]

theorem disconnect_hide_of_none (w : Window) (h : w.pending_hide = none) :
    disconnect_hide w = w := by
  simp [disconnect_hide, h]

theorem disconnect_show_pending (w : Window) : (disconnect_show w).pending_show = none := by
  rw [disconnect_show_frame]

theorem disconnect_hide_pending (w : Window) : (disconnect_hide w).pending_hide = none := by
  rw [disconnect_hide_frame]

theorem connected_iff (w : Window) (id : Nat) :
    connected w (some id) = true ↔ ∃ t ∈ w.timeouts, t.id = id := by
  simp [connected]

/-- The state `schedule_hide` produces for a delay other than zero. -/
theorem schedule_hide_delayed (d : Int) (hd : d ≠ 0) (w : Window) :
    schedule_hide d w =
      if connected (disconnect_show w) (disconnect_show w).pending_hide then disconnect_show w
      else
        { disconnect_show w with
            timeouts := (disconnect_show w).timeouts ++
              [{ id := w.next_timeout, interval := d, action := TimerAction.m_do_hide,
                 due := w.now + d.toNat }],
            next_timeout := w.next_timeout + 1,
            pending_hide := some w.next_timeout } := by
  have hn : (disconnect_show w).next_timeout = w.next_timeout := by rw [disconnect_show_frame]
  have hnow : (disconnect_show w).now = w.now := by rw [disconnect_show_frame]
  simp only [schedule_hide, hd, if_false, signal_timeout_connect, hn, hnow]
  cases h : connected (disconnect_show w) (disconnect_show w).pending_hide <;> simp

theorem schedule_show_delayed (d : Int) (hd : d ≠ 0) (w : Window) :
    schedule_show d w =
      if connected (disconnect_hide w) (disconnect_hide w).pending_show then disconnect_hide w
      else
        { disconnect_hide w with
            timeouts := (disconnect_hide w).timeouts ++
              [{ id := w.next_timeout, interval := d, action := TimerAction.m_do_show,
                 due := w.now + d.toNat }],
            next_timeout := w.next_timeout + 1,
            pending_show := some w.next_timeout } := by
  have hn : (disconnect_hide w).next_timeout = w.next_timeout := by rw [disconnect_hide_frame]
  have hnow : (disconnect_hide w).now = w.now := by rw [disconnect_hide_frame]
  simp only [schedule_show, hd, if_false, signal_timeout_connect, hn, hnow]
  cases h : connected (disconnect_hide w) (disconnect_hide w).pending_show <;> simp

theorem schedule_hide_delayed_pending_show (d : Int) (hd : d ≠ 0) (w : Window) :
    (schedule_hide d w).pending_show = none := by
  rw [schedule_hide_delayed d hd]
  split
  · exact disconnect_show_pending w
  · exact disconnect_show_pending w

theorem schedule_show_delayed_pending_hide (d : Int) (hd : d ≠ 0) (w : Window) :
    (schedule_show d w).pending_hide = none := by
  rw [schedule_show_delayed d hd]
  split
  · exact disconnect_hide_pending w
  · exact disconnect_hide_pending w

theorem schedule_hide_delayed_connected (d : Int) (hd : d ≠ 0) (w : Window) :
    connected (schedule_hide d w) (schedule_hide d w).pending_hide = true := by
  rw [schedule_hide_delayed d hd]
  split
  · assumption
  · simp [connected]

theorem schedule_show_delayed_connected (d : Int) (hd : d ≠ 0) (w : Window) :
    connected (schedule_show d w) (schedule_show d w).pending_show = true := by
  rw [schedule_show_delayed d hd]
  split
  · assumption
  · simp [connected]

theorem schedule_hide_idem (d1 d2 : Int) (h1 : d1 ≠ 0) (h2 : d2 ≠ 0) (w : Window) :
    schedule_hide d2 (schedule_hide d1 w) = schedule_hide d1 w := by
  rw [schedule_hide_delayed d2 h2 (schedule_hide d1 w),
    disconnect_show_of_none _ (schedule_hide_delayed_pending_show d1 h1 w),
    schedule_hide_delayed_connected d1 h1 w]
  rfl

theorem schedule_show_idem (d1 d2 : Int) (h1 : d1 ≠ 0) (h2 : d2 ≠ 0) (w : Window) :
    schedule_show d2 (schedule_show d1 w) = schedule_show d1 w := by
  rw [schedule_show_delayed d2 h2 (schedule_show d1 w),
    disconnect_hide_of_none _ (schedule_show_delayed_pending_hide d1 h1 w),
    schedule_show_delayed_connected d1 h1 w]
  rfl

theorem disconnect_show_pending_hide (w : Window) :
    (disconnect_show w).pending_hide = w.pending_hide := by
  rw [disconnect_show_frame]

theorem disconnect_hide_pending_show (w : Window) :
    (disconnect_hide w).pending_show = w.pending_show := by
  rw [disconnect_hide_frame]

theorem disconnect_show_timeouts_sub (w : Window) (t : Timeout)
    (h : t ∈ (disconnect_show w).timeouts) : t ∈ w.timeouts := by
  simp only [disconnect_show] at h
  split at h
  · exact h
  · exact (List.mem_filter.mp h).1

theorem disconnect_hide_timeouts_sub (w : Window) (t : Timeout)
    (h : t ∈ (disconnect_hide w).timeouts) : t ∈ w.timeouts := by
  simp only [disconnect_hide] at h
  split at h
  · exact h
  · exact (List.mem_filter.mp h).1

theorem connected_mono (w v : Window) (c : sigc_connection)
    (hsub : ∀ t, t ∈ v.timeouts → t ∈ w.timeouts) (h : connected v c = true) :
    connected w c = true := by
  cases c with
  | none => simp [connected] at h
  | some id =>
    rw [connected_iff] at h ⊢
    obtain ⟨t, ht, hid⟩ := h
    exact ⟨t, hsub t ht, hid⟩

theorem disconnect_show_hide_not_connected (w : Window) (h : connected w w.pending_hide = false) :
    connected (disconnect_show w) (disconnect_show w).pending_hide = false := by
  rw [disconnect_show_pending_hide]
  cases hc : connected (disconnect_show w) w.pending_hide with
  | false => rfl
  | true =>
    rw [connected_mono w (disconnect_show w) _ (disconnect_show_timeouts_sub w) hc] at h
    exact h

theorem disconnect_hide_show_not_connected (w : Window) (h : connected w w.pending_show = false) :
    connected (disconnect_hide w) (disconnect_hide w).pending_show = false := by
  rw [disconnect_hide_pending_show]
  cases hc : connected (disconnect_hide w) w.pending_show with
  | false => rfl
  | true =>
    rw [connected_mono w (disconnect_hide w) _ (disconnect_hide_timeouts_sub w) hc] at h
    exact h

theorem increase_autohide_counter (w : Window) :
    (increase_autohide w).autohide_counter = w.autohide_counter + 1 := by
  unfold increase_autohide
  simp only []
  split
  · rw [schedule_hide_zero_eq]
  · rfl

theorem decrease_autohide_counter (w : Window) :
    (decrease_autohide w).autohide_counter = max (w.autohide_counter - 1) 0 := by
  unfold decrease_autohide
  simp only []
  split
  · rw [schedule_show_zero_eq]
  · rfl

theorem autohide_calls_counter_nonneg (cs : List AutohideCall) :
    ∀ w : Window, 0 ≤ w.autohide_counter → 0 ≤ (autohide_calls cs w).autohide_counter := by
  induction cs with
  | nil => intro w h; exact h
  | cons c cs ih =>
    intro w h
    show 0 ≤ (autohide_calls cs (autohide_call w c)).autohide_counter
    apply ih
    cases c with
    | increase =>
      show 0 ≤ (increase_autohide w).autohide_counter
      rw [increase_autohide_counter]; omega
    | decrease =>
      show 0 ≤ (decrease_autohide w).autohide_counter
      rw [decrease_autohide_counter]; omega

theorem scheduler_invariant_congr (w v : Window) (h : timer_view v = timer_view w)
    (hi : scheduler_invariant w) : scheduler_invariant v := by
  simp only [timer_view, Prod.mk.injEq] at h
  obtain ⟨h1, h2, h3, h4, h5⟩ := h
  have hc : ∀ c, connected v c = connected w c := by
    intro c
    simp only [connected, h1]
  unfold scheduler_invariant timers_fresh both_pending_only_fallback at *
  rw [h1, h2, h3, h4, h5, hc, hc]
  exact hi

theorem scheduler_invariant_of_one_empty (v : Window) (hf : timers_fresh v)
    (hc : 0 ≤ v.autohide_counter) (hp : v.pending_show = none ∨ v.pending_hide = none) :
    scheduler_invariant v := by
  refine ⟨hf, hc, ?_⟩
  intro h1 h2
  rcases hp with hp | hp
  · rw [hp] at h1; simp [connected] at h1
  · rw [hp] at h2; simp [connected] at h2

theorem timer_view_update_margin (w : Window) :
    timer_view (update_margin w).1 = timer_view w := by
  rw [update_margin_frame]; rfl

theorem timer_view_m_do_hide (w : Window) : timer_view (m_do_hide w).1 = timer_view w := by
  rw [m_do_hide_eq]; rfl

theorem timer_view_m_do_show (w : Window) : timer_view (m_do_show w).1 = timer_view w := by
  rw [m_do_show_eq]; rfl

theorem timer_view_set_auto_exclusive_zone (b : Bool) (w : Window) :
    timer_view (set_auto_exclusive_zone b w) = timer_view w := by
  unfold set_auto_exclusive_zone
  simp only []
  by_cases h : w.last_zone ≠ (if b = true then w.allocated_height else 0)
  · rw [if_pos h]; rfl
  · rw [if_neg h]; rfl

theorem timer_view_destroy_hotspot (h : Option Hotspot) (w : Window) :
    timer_view (destroy_hotspot h w) = timer_view w := by
  cases h <;> rfl

theorem timer_view_setup_hotspot (w : Window) : timer_view (setup_hotspot w) = timer_view w := by
  unfold setup_hotspot
  split
  · rfl
  · split
    · rfl
    · simp only [timer_view]
      cases w.edge_hotspot <;> cases w.panel_hotspot <;> rfl

theorem timer_view_gtk_layer_set_anchor (e : GtkLayerShellEdge) (b : Bool) (w : Window) :
    timer_view (gtk_layer_set_anchor e b w) = timer_view w := by
  cases e <;> rfl

theorem timers_fresh_disconnect_show (w : Window) (h : timers_fresh w) :
    timers_fresh (disconnect_show w) := by
  intro t ht
  have hn : (disconnect_show w).next_timeout = w.next_timeout := by rw [disconnect_show_frame]
  rw [hn]
  exact h t (disconnect_show_timeouts_sub w t ht)

theorem timers_fresh_disconnect_hide (w : Window) (h : timers_fresh w) :
    timers_fresh (disconnect_hide w) := by
  intro t ht
  have hn : (disconnect_hide w).next_timeout = w.next_timeout := by rw [disconnect_hide_frame]
  rw [hn]
  exact h t (disconnect_hide_timeouts_sub w t ht)

theorem schedule_hide_pending_show (d : Int) (w : Window) :
    (schedule_hide d w).pending_show = none := by
  by_cases hd : d = 0
  · subst hd; rw [schedule_hide_zero_eq]
  · exact schedule_hide_delayed_pending_show d hd w

theorem schedule_show_pending_hide (d : Int) (w : Window) :
    (schedule_show d w).pending_hide = none := by
  by_cases hd : d = 0
  · subst hd; rw [schedule_show_zero_eq]
  · exact schedule_show_delayed_pending_hide d hd w

theorem schedule_hide_counter (d : Int) (w : Window) :
    (schedule_hide d w).autohide_counter = w.autohide_counter := by
  by_cases hd : d = 0
  · subst hd; rw [schedule_hide_zero_eq]
  · rw [schedule_hide_delayed d hd]
    split <;> rw [disconnect_show_frame]

theorem schedule_show_counter (d : Int) (w : Window) :
    (schedule_show d w).autohide_counter = w.autohide_counter := by
  by_cases hd : d = 0
  · subst hd; rw [schedule_show_zero_eq]
  · rw [schedule_show_delayed d hd]
    split <;> rw [disconnect_hide_frame]

theorem timers_fresh_schedule_hide (d : Int) (w : Window) (h : timers_fresh w) :
    timers_fresh (schedule_hide d w) := by
  by_cases hd : d = 0
  · subst hd
    rw [schedule_hide_zero_eq]
    intro t ht
    exact h t (disconnect_show_timeouts_sub w t ht)
  · rw [schedule_hide_delayed d hd]
    split
    · exact timers_fresh_disconnect_show w h
    · intro t ht
      show t.id < w.next_timeout + 1
      rcases List.mem_append.mp ht with ht | ht
      · have := h t (disconnect_show_timeouts_sub w t ht)
        omega
      · rw [List.mem_singleton.mp ht]
        exact Nat.lt_succ_self _

theorem timers_fresh_schedule_show (d : Int) (w : Window) (h : timers_fresh w) :
    timers_fresh (schedule_show d w) := by
  by_cases hd : d = 0
  · subst hd
    rw [schedule_show_zero_eq]
    intro t ht
    exact h t (disconnect_hide_timeouts_sub w t ht)
  · rw [schedule_show_delayed d hd]
    split
    · exact timers_fresh_disconnect_hide w h
    · intro t ht
      show t.id < w.next_timeout + 1
      rcases List.mem_append.mp ht with ht | ht
      · have := h t (disconnect_hide_timeouts_sub w t ht)
        omega
      · rw [List.mem_singleton.mp ht]
        exact Nat.lt_succ_self _

theorem scheduler_invariant_schedule_hide (d : Int) (w : Window) (h : scheduler_invariant w) :
    scheduler_invariant (schedule_hide d w) :=
  scheduler_invariant_of_one_empty _ (timers_fresh_schedule_hide d w h.1)
    (by rw [schedule_hide_counter]; exact h.2.1) (Or.inl (schedule_hide_pending_show d w))

theorem scheduler_invariant_schedule_show (d : Int) (w : Window) (h : scheduler_invariant w) :
    scheduler_invariant (schedule_show d w) :=
  scheduler_invariant_of_one_empty _ (timers_fresh_schedule_show d w h.1)
    (by rw [schedule_show_counter]; exact h.2.1) (Or.inr (schedule_show_pending_hide d w))

theorem scheduler_invariant_m_show_uncertain (w : Window) (h : scheduler_invariant w) :
    scheduler_invariant (m_show_uncertain w) := by
  have h1 := scheduler_invariant_schedule_show 16 w h
  unfold m_show_uncertain
  simp only [signal_timeout_connect]
  split
  · rename_i ha
    refine ⟨?_, h1.2.1, ?_⟩
    · intro t ht
      show t.id < (schedule_show 16 w).next_timeout + 1
      rcases List.mem_append.mp ht with ht | ht
      · have := h1.1 t ht
        omega
      · rw [List.mem_singleton.mp ht]
        exact Nat.lt_succ_self _
    · intro _ _
      refine ⟨?_, ?_⟩
      · simpa [is_autohide] using ha
      · intro t ht hid
        rcases List.mem_append.mp ht with ht | ht
        · have hlt := h1.1 t ht
          have : (schedule_show 16 w).next_timeout = t.id := Option.some.inj hid
          omega
        · rw [List.mem_singleton.mp ht]
          exact ⟨rfl, rfl⟩
  · exact h1

theorem scheduler_invariant_update_position (w : Window) (h : scheduler_invariant w) :
    scheduler_invariant (update_position w) := by
  unfold update_position
  apply scheduler_invariant_m_show_uncertain
  apply scheduler_invariant_congr w _ _ h
  rw [timer_view_setup_hotspot]
  simp only [timer_view]
  split
  · rename_i anchor _
    cases anchor <;> rfl
  · rfl

theorem scheduler_invariant_increase_autohide (w : Window) (h : scheduler_invariant w) :
    scheduler_invariant (increase_autohide w) := by
  have hv : scheduler_invariant { w with autohide_counter := w.autohide_counter + 1 } := by
    obtain ⟨hf, hc, hb⟩ := h
    refine ⟨hf, ?_, ?_⟩
    · show 0 ≤ w.autohide_counter + 1
      omega
    · intro h1 h2
      refine ⟨?_, (hb h1 h2).2⟩
      show w.autohide_counter + 1 ≠ 0
      omega
  unfold increase_autohide
  simp only []
  split
  · exact scheduler_invariant_schedule_hide 0 _ hv
  · exact hv

theorem scheduler_invariant_decrease_autohide (w : Window) (h : scheduler_invariant w) :
    scheduler_invariant (decrease_autohide w) := by
  unfold decrease_autohide
  simp only []
  split
  · rename_i hz
    apply scheduler_invariant_of_one_empty
    · apply timers_fresh_schedule_show
      exact h.1
    · rw [schedule_show_counter]
      exact le_max_right _ _
    · exact Or.inr (schedule_show_pending_hide 0 _)
  · rename_i hz
    obtain ⟨hf, hc, hb⟩ := h
    refine ⟨hf, le_max_right _ _, ?_⟩
    intro h1 h2
    exact ⟨hz, (hb h1 h2).2⟩

theorem scheduler_invariant_panel_on_enter (w : Window) (h : scheduler_invariant w) :
    scheduler_invariant (panel_on_enter w) := by
  unfold panel_on_enter
  split
  · apply scheduler_invariant_of_one_empty
    · exact timers_fresh_disconnect_hide w h.1
    · rw [disconnect_hide_frame]
      exact h.2.1
    · exact Or.inr (disconnect_hide_pending w)
  · exact h

theorem scheduler_invariant_panel_on_leave (w : Window) (h : scheduler_invariant w) :
    scheduler_invariant (panel_on_leave w) := by
  unfold panel_on_leave
  split
  · exact scheduler_invariant_schedule_hide 300 w h
  · exact h

theorem scheduler_invariant_set_position (p : wf_option) (w : Window)
    (h : scheduler_invariant w) : scheduler_invariant ((set_position (some p) w).getD w) := by
  simp only [set_position, Option.getD_some]
  apply scheduler_invariant_update_position
  exact scheduler_invariant_congr w _ rfl h

theorem scheduler_invariant_on_option_updated (id : Nat) (v : String) (w : Window)
    (h : scheduler_invariant w) : scheduler_invariant (on_option_updated id v w) := by
  have hv : scheduler_invariant
      (if w.m_position.id = id then
        { w with m_position := { w.m_position with value := v } } else w) := by
    split
    · exact scheduler_invariant_congr w _ rfl h
    · exact h
  have key : ∀ x : Window, scheduler_invariant x →
      scheduler_invariant (if id ∈ x.subscribed then update_position x else x) := by
    intro x hx
    split
    · exact scheduler_invariant_update_position x hx
    · exact hx
  exact key _ hv

theorem scheduler_invariant_on_size_allocate (height : Int) (w : Window)
    (h : scheduler_invariant w) : scheduler_invariant (on_size_allocate height w) := by
  unfold on_size_allocate
  apply scheduler_invariant_congr w _ _ h
  rw [timer_view_setup_hotspot, timer_view_set_auto_exclusive_zone]
  rfl

/-- A window whose live timeouts are among those of another one, with unchanged
connections unless they were emptied, inherits the invariant. -/
theorem scheduler_invariant_after_removal (w : Window) (id : Nat)
    (h : scheduler_invariant w) :
    scheduler_invariant
      { w with
          timeouts := remove_timeout id w.timeouts,
          pending_show := if w.pending_show = some id then none else w.pending_show,
          pending_hide := if w.pending_hide = some id then none else w.pending_hide } := by
  obtain ⟨hf, hc, hb⟩ := h
  have hsub : ∀ t, t ∈ remove_timeout id w.timeouts → t ∈ w.timeouts :=
    fun t ht => (List.mem_filter.mp ht).1
  refine ⟨fun t ht => hf t (hsub t ht), hc, ?_⟩
  intro h1 h2
  have e1 : (if w.pending_show = some id then none else w.pending_show) = w.pending_show := by
    split
    · rename_i he
      rw [he] at h1
      simp [connected] at h1
    · rfl
  have e2 : (if w.pending_hide = some id then none else w.pending_hide) = w.pending_hide := by
    split
    · rename_i he
      rw [he] at h2
      simp [connected] at h2
    · rfl
  simp only [e1, e2] at h1 h2 ⊢
  have c1 : connected w w.pending_show = true := by
    cases hp : w.pending_show with
    | none => rw [hp] at h1; simp [connected] at h1
    | some j =>
      rw [hp] at h1
      rw [connected_iff] at h1 ⊢
      obtain ⟨t, ht, hid⟩ := h1
      exact ⟨t, hsub t ht, hid⟩
  have c2 : connected w w.pending_hide = true := by
    cases hp : w.pending_hide with
    | none => rw [hp] at h2; simp [connected] at h2
    | some j =>
      rw [hp] at h2
      rw [connected_iff] at h2 ⊢
      obtain ⟨t, ht, hid⟩ := h2
      exact ⟨t, hsub t ht, hid⟩
  refine ⟨(hb c1 c2).1, ?_⟩
  intro t ht hid
  exact (hb c1 c2).2 t (hsub t ht) hid

theorem scheduler_invariant_run_action (a : TimerAction) (w : Window)
    (h : scheduler_invariant w) : scheduler_invariant (run_action a w) := by
  cases a with
  | m_do_hide => exact scheduler_invariant_congr w _ (timer_view_m_do_hide w) h
  | m_do_show => exact scheduler_invariant_congr w _ (timer_view_m_do_show w) h
  | uncertain_hide => exact scheduler_invariant_schedule_hide 0 w h

theorem scheduler_invariant_fire_timeout (id : Nat) (w : Window) (h : scheduler_invariant w) :
    scheduler_invariant (fire_timeout id w) := by
  unfold fire_timeout
  split
  · exact h
  · rename_i t _
    exact scheduler_invariant_after_removal _ id (scheduler_invariant_run_action t.action w h)

theorem scheduler_invariant_step (w : Window) (e : Event) (h : scheduler_invariant w) :
    scheduler_invariant (step w e) := by
  cases e with
  | set_position p => exact scheduler_invariant_set_position p w h
  | option_updated id v => exact scheduler_invariant_on_option_updated id v w h
  | set_animation_duration d => exact scheduler_invariant_congr w _ rfl h
  | set_auto_exclusive_zone b =>
    exact scheduler_invariant_congr w _ (timer_view_set_auto_exclusive_zone b w) h
  | increase_autohide => exact scheduler_invariant_increase_autohide w h
  | decrease_autohide => exact scheduler_invariant_decrease_autohide w h
  | schedule_hide d => exact scheduler_invariant_schedule_hide d w h
  | schedule_show d => exact scheduler_invariant_schedule_show d w h
  | size_allocate height => exact scheduler_invariant_on_size_allocate height w h
  | draw => exact scheduler_invariant_congr w _ (timer_view_update_margin w) h
  | edge_enter =>
    show scheduler_invariant (if w.edge_hotspot.isSome then edge_on_enter w else w)
    split
    · exact scheduler_invariant_schedule_show 0 w h
    · exact h
  | edge_leave =>
    show scheduler_invariant (if w.edge_hotspot.isSome then edge_on_leave w else w)
    split <;> exact h
  | panel_enter =>
    show scheduler_invariant (if w.panel_hotspot.isSome then panel_on_enter w else w)
    split
    · exact scheduler_invariant_panel_on_enter w h
    · exact h
  | panel_leave =>
    show scheduler_invariant (if w.panel_hotspot.isSome then panel_on_leave w else w)
    split
    · exact scheduler_invariant_panel_on_leave w h
    · exact h
  | timeout id =>
    show scheduler_invariant
      (if w.timeouts.any (fun t => t.id == id && decide (t.due ≤ w.now)) then fire_timeout id w
       else w)
    split
    · exact scheduler_invariant_fire_timeout id w h
    · exact h
  | advance ms => exact scheduler_invariant_congr w _ rfl h

theorem scheduler_invariant_run (es : List Event) :
    ∀ w : Window, scheduler_invariant w → scheduler_invariant (run es w) := by
  induction es with
  | nil => intro w h; exact h
  | cons e es ih =>
    intro w h
    exact ih (step w e) (scheduler_invariant_step w e h)

theorem scheduler_invariant_constructor (output_valid : Bool) (height : Int) :
    scheduler_invariant (constructor output_valid height) := by
  apply scheduler_invariant_of_one_empty
  · intro t ht
    simp [constructor, set_animation_duration] at ht
  · simp [constructor, set_animation_duration]
  · exact Or.inl rfl

theorem scheduler_invariant_of_reachable (w : Window) (h : Reachable w) :
    scheduler_invariant w := by
  obtain ⟨ov, height, es, rfl⟩ := h
  exact scheduler_invariant_run es _ (scheduler_invariant_constructor ov height)

/-! ## Position, firing and ownership -/

theorem setup_hotspot_frame (w : Window) :
    setup_hotspot w =
      { w with
          last_hotspot_height := (setup_hotspot w).last_hotspot_height,
          edge_hotspot := (setup_hotspot w).edge_hotspot,
          panel_hotspot := (setup_hotspot w).panel_hotspot,
          calls := (setup_hotspot w).calls } := by
  unfold setup_hotspot
  split
  · rfl
  · split
    · rfl
    · simp only [destroy_hotspot]
      cases w.edge_hotspot <;> cases w.panel_hotspot <;> rfl

theorem schedule_show_frame (d : Int) (w : Window) :
    schedule_show d w =
      { w with
          timeouts := (schedule_show d w).timeouts,
          next_timeout := (schedule_show d w).next_timeout,
          pending_show := (schedule_show d w).pending_show,
          pending_hide := none,
          transition := (schedule_show d w).transition,
          calls := (schedule_show d w).calls } := by
  by_cases hd : d = 0
  · subst hd
    rw [schedule_show_zero_eq]
  · rw [schedule_show_delayed d hd]
    split <;> rw [disconnect_hide_frame]

theorem schedule_hide_frame (d : Int) (w : Window) :
    schedule_hide d w =
      { w with
          timeouts := (schedule_hide d w).timeouts,
          next_timeout := (schedule_hide d w).next_timeout,
          pending_hide := (schedule_hide d w).pending_hide,
          pending_show := none,
          transition := (schedule_hide d w).transition,
          calls := (schedule_hide d w).calls } := by
  by_cases hd : d = 0
  · subst hd
    rw [schedule_hide_zero_eq]
  · rw [schedule_hide_delayed d hd]
    split <;> rw [disconnect_show_frame]

theorem schedule_show_delayed_transition (d : Int) (hd : d ≠ 0) (w : Window) :
    (schedule_show d w).transition = w.transition
    ∧ (schedule_show d w).calls = w.calls := by
  rw [schedule_show_delayed d hd]
  split <;> rw [disconnect_hide_frame] <;> exact ⟨rfl, rfl⟩

theorem schedule_hide_delayed_transition (d : Int) (hd : d ≠ 0) (w : Window) :
    (schedule_hide d w).transition = w.transition
    ∧ (schedule_hide d w).calls = w.calls := by
  rw [schedule_hide_delayed d hd]
  split <;> rw [disconnect_show_frame] <;> exact ⟨rfl, rfl⟩

theorem m_show_uncertain_frame (w : Window) :
    m_show_uncertain w =
      { w with
          timeouts := (m_show_uncertain w).timeouts,
          next_timeout := (m_show_uncertain w).next_timeout,
          pending_show := (m_show_uncertain w).pending_show,
          pending_hide := (m_show_uncertain w).pending_hide } := by
  have h16 : (16 : Int) ≠ 0 := by decide
  have ht := schedule_show_delayed_transition 16 h16 w
  unfold m_show_uncertain
  simp only [signal_timeout_connect]
  split
  · rw [schedule_show_frame]
    simp only [ht.1, ht.2]
  · rw [schedule_show_frame]
    simp only [ht.1, ht.2]

theorem get_anchor_edge_top (s : String) (h : check_position s = WF_WINDOW_POSITION_TOP) :
    get_anchor_edge s = some GtkLayerShellEdge.TOP := by
  simp [get_anchor_edge, h]

theorem get_anchor_edge_bottom (s : String) (h : check_position s ≠ WF_WINDOW_POSITION_TOP) :
    get_anchor_edge s = some GtkLayerShellEdge.BOTTOM := by
  have hb : check_position s = WF_WINDOW_POSITION_BOTTOM := by
    unfold check_position at h ⊢
    by_cases h1 : s = WF_WINDOW_POSITION_TOP
    · simp [h1] at h
    · by_cases h2 : s = WF_WINDOW_POSITION_BOTTOM
      · simp [h2, bottom_ne_top]
      · simp [h1, h2] at h
  simp [get_anchor_edge, hb, bottom_ne_top]

/-- The window `update_position` hands to `m_show_uncertain`: anchors reset and
set, transition values moved off screen, hotspots set up. -/
theorem update_position_eq (w : Window) :
    update_position w = m_show_uncertain (setup_hotspot
      { w with
          anchor_top := decide (check_position w.m_position.value = WF_WINDOW_POSITION_TOP),
          anchor_bottom := decide (check_position w.m_position.value ≠ WF_WINDOW_POSITION_TOP),
          calls := w.calls ++
            [ToolkitCall.set_anchor GtkLayerShellEdge.TOP false,
             ToolkitCall.set_anchor GtkLayerShellEdge.BOTTOM false,
             ToolkitCall.set_anchor
               (if check_position w.m_position.value = WF_WINDOW_POSITION_TOP
                then GtkLayerShellEdge.TOP else GtkLayerShellEdge.BOTTOM) true],
          transition :=
            { w.transition with
                start_value := ((-w.allocated_height : Int) : ℚ),
                end_value := ((-w.allocated_height : Int) : ℚ) } }) := by
  unfold update_position
  simp only []
  have hm : (gtk_layer_set_anchor GtkLayerShellEdge.BOTTOM false
      (gtk_layer_set_anchor GtkLayerShellEdge.TOP false w)).m_position = w.m_position := rfl
  rw [hm]
  by_cases h : check_position w.m_position.value = WF_WINDOW_POSITION_TOP
  · rw [get_anchor_edge_top _ h]
    simp [h, gtk_layer_set_anchor]
  · rw [get_anchor_edge_bottom _ h]
    simp [h, gtk_layer_set_anchor]

theorem update_position_anchors (w : Window) :
    (update_position w).anchor_top
        = decide (check_position w.m_position.value = WF_WINDOW_POSITION_TOP)
    ∧ (update_position w).anchor_bottom
        = decide (check_position w.m_position.value ≠ WF_WINDOW_POSITION_TOP) := by
  unfold update_position
  rw [m_show_uncertain_frame, setup_hotspot_frame]
  simp only []
  have hm : (gtk_layer_set_anchor GtkLayerShellEdge.BOTTOM false
      (gtk_layer_set_anchor GtkLayerShellEdge.TOP false w)).m_position = w.m_position := rfl
  rw [hm]
  by_cases h : check_position w.m_position.value = WF_WINDOW_POSITION_TOP
  · rw [get_anchor_edge_top _ h]
    simp [h, gtk_layer_set_anchor]
  · rw [get_anchor_edge_bottom _ h]
    simp [h, gtk_layer_set_anchor]

theorem progress_at_start (t : wf_duration) (x y : ℚ) (now : Nat) (h : 0 < t.duration) :
    (t.start x y now).progress now = x := by
  simp [wf_duration.progress, wf_duration.running, wf_duration.start, h]

theorem progress_not_running (t : wf_duration) (now : Nat) (h : t.running now = false) :
    t.progress now = t.end_value := by
  simp [wf_duration.progress, h]

theorem hide_then_wait_state :
    (run [Event.schedule_hide 0, Event.advance 150] (constructor true 40)).transition
      = { start_value := 0, end_value := -40, duration := 300, start_time := 0 }
    ∧ (run [Event.schedule_hide 0, Event.advance 150] (constructor true 40)).now = 150 := by
  constructor
  · show (schedule_hide 0 (constructor true 40)).transition = _
    rw [schedule_hide_zero_eq]
    simp [constructor, set_animation_duration, wf_duration.start, wf_duration.progress,
      wf_duration.running, double_to_int]
  · show (schedule_hide 0 (constructor true 40)).now + 150 = 150
    rw [schedule_hide_zero_eq]
    rfl

theorem is_autohide_schedule_show (d : Int) (w : Window) :
    is_autohide (schedule_show d w) = is_autohide w := by
  simp only [is_autohide, schedule_show_counter]

/-- What `m_show_uncertain` leaves in the two connections. -/
theorem m_show_uncertain_timers (v : Window) :
    connected (m_show_uncertain v) (m_show_uncertain v).pending_show = true
    ∧ (connected v v.pending_show = false →
        ∃ t ∈ (m_show_uncertain v).timeouts,
          (m_show_uncertain v).pending_show = some t.id ∧ t.interval = 16
            ∧ t.action = TimerAction.m_do_show)
    ∧ (is_autohide v = true →
        ∃ t ∈ (m_show_uncertain v).timeouts,
          (m_show_uncertain v).pending_hide = some t.id ∧ t.interval = 1000
            ∧ t.action = TimerAction.uncertain_hide)
    ∧ (is_autohide v = false →
        connected (m_show_uncertain v) (m_show_uncertain v).pending_hide = false) := by
  have h16 : (16 : Int) ≠ 0 := by decide
  have hc := schedule_show_delayed_connected 16 h16 v
  have ha := is_autohide_schedule_show 16 v
  have hnew : connected v v.pending_show = false →
      ∃ t ∈ (schedule_show 16 v).timeouts,
        (schedule_show 16 v).pending_show = some t.id ∧ t.interval = 16
          ∧ t.action = TimerAction.m_do_show := by
    intro hn
    rw [schedule_show_delayed 16 h16, disconnect_hide_show_not_connected v hn]
    exact ⟨_, List.mem_append_right _ (List.mem_singleton_self _), rfl, rfl, rfl⟩
  unfold m_show_uncertain
  simp only [signal_timeout_connect, ha]
  cases hv : is_autohide v with
  | false =>
    simp only [Bool.false_eq_true, if_false, false_implies, true_implies, true_and]
    refine ⟨hc, hnew, ?_⟩
    rw [schedule_show_pending_hide]
    rfl
  | true =>
    simp only [if_true, true_implies, Bool.true_eq_false, false_implies, and_true]
    refine ⟨?_, ?_, ?_⟩
    · cases hp : (schedule_show 16 v).pending_show with
      | none => rw [hp] at hc; simp [connected] at hc
      | some j =>
        rw [hp, connected_iff] at hc
        obtain ⟨t, ht, hid⟩ := hc
        show connected _ (some j) = true
        rw [connected_iff]
        exact ⟨t, List.mem_append_left _ ht, hid⟩
    · intro hn
      obtain ⟨t, ht, h1, h2, h3⟩ := hnew hn
      exact ⟨t, List.mem_append_left _ ht, h1, h2, h3⟩
    · exact ⟨_, List.mem_append_right _ (List.mem_singleton_self _), rfl, rfl, rfl⟩

theorem update_position_transition (w : Window) :
    (update_position w).transition
      = { w.transition with
            start_value := ((-w.allocated_height : Int) : ℚ),
            end_value := ((-w.allocated_height : Int) : ℚ) } := by
  rw [update_position_eq, m_show_uncertain_frame, setup_hotspot_frame]

theorem find_fresh_timeout (l : List Timeout) (x : Timeout)
    (h : ∀ t ∈ l, t.id ≠ x.id) :
    (l ++ [x]).find? (fun t => t.id == x.id) = some x := by
  induction l with
  | nil => simp
  | cons a l ih =>
    have ha : a.id ≠ x.id := h a (List.mem_cons_self _ _)
    have hl : ∀ t ∈ l, t.id ≠ x.id := fun t ht => h t (List.mem_cons_of_mem _ ht)
    simp only [List.cons_append, List.find?_cons]
    have : (a.id == x.id) = false := by simpa using ha
    rw [this]
    exact ih hl

theorem any_fresh_timeout (l : List Timeout) (x : Timeout) (now : Nat)
    (h : ∀ t ∈ l, t.id ≠ x.id) :
    (l ++ [x]).any (fun t => t.id == x.id && decide (t.due ≤ now)) = decide (x.due ≤ now) := by
  induction l with
  | nil => simp
  | cons a l ih =>
    have ha : a.id ≠ x.id := h a (List.mem_cons_self _ _)
    have hl : ∀ t ∈ l, t.id ≠ x.id := fun t ht => h t (List.mem_cons_of_mem _ ht)
    have : (a.id == x.id) = false := by simpa using ha
    simp only [List.cons_append, List.any_cons, this, Bool.false_and, Bool.false_or]
    exact ih hl

/-- A freshly armed hide fires: the callback is `m_do_hide`, and the source and the
connection to it are gone. -/
theorem fire_fresh_hide (v : Window) (x : Timeout) (l : List Timeout)
    (hl : v.timeouts = l ++ [x]) (hf : ∀ t ∈ l, t.id ≠ x.id)
    (hx : x.action = TimerAction.m_do_hide) (hp : v.pending_hide = some x.id) :
    (fire_timeout x.id v).transition.end_value = ((-v.allocated_height : Int) : ℚ)
    ∧ (fire_timeout x.id v).transition.start_time = v.now
    ∧ connected (fire_timeout x.id v) (fire_timeout x.id v).pending_hide = false
    ∧ (∀ t ∈ (fire_timeout x.id v).timeouts, t.id ≠ x.id) := by
  unfold fire_timeout
  rw [hl, find_fresh_timeout l x hf]
  simp only [hx, run_action]
  rw [m_do_hide_eq]
  simp only [hp, if_true]
  refine ⟨rfl, rfl, rfl, ?_⟩
  intro t ht
  have := (List.mem_filter.mp ht).2
  simpa using this

theorem fire_fresh_show (v : Window) (x : Timeout) (l : List Timeout)
    (hl : v.timeouts = l ++ [x]) (hf : ∀ t ∈ l, t.id ≠ x.id)
    (hx : x.action = TimerAction.m_do_show) (hp : v.pending_show = some x.id) :
    (fire_timeout x.id v).transition.end_value = 0
    ∧ (fire_timeout x.id v).transition.start_time = v.now
    ∧ connected (fire_timeout x.id v) (fire_timeout x.id v).pending_show = false
    ∧ (∀ t ∈ (fire_timeout x.id v).timeouts, t.id ≠ x.id) := by
  unfold fire_timeout
  rw [hl, find_fresh_timeout l x hf]
  simp only [hx, run_action]
  rw [m_do_show_eq]
  simp only [hp, if_true]
  refine ⟨rfl, rfl, rfl, ?_⟩
  intro t ht
  have := (List.mem_filter.mp ht).2
  simpa using this

/-- The state after `schedule_hide` armed a timer. -/
theorem schedule_hide_arms (d : Int) (hd : d ≠ 0) (w : Window)
    (hc : connected w w.pending_hide = false) :
    schedule_hide d w =
      { disconnect_show w with
          timeouts := (disconnect_show w).timeouts ++
            [{ id := w.next_timeout, interval := d, action := TimerAction.m_do_hide,
               due := w.now + d.toNat }],
          next_timeout := w.next_timeout + 1,
          pending_hide := some w.next_timeout } := by
  rw [schedule_hide_delayed d hd, disconnect_show_hide_not_connected w hc]
  rfl

theorem schedule_show_arms (d : Int) (hd : d ≠ 0) (w : Window)
    (hc : connected w w.pending_show = false) :
    schedule_show d w =
      { disconnect_hide w with
          timeouts := (disconnect_hide w).timeouts ++
            [{ id := w.next_timeout, interval := d, action := TimerAction.m_do_show,
               due := w.now + d.toNat }],
          next_timeout := w.next_timeout + 1,
          pending_show := some w.next_timeout } := by
  rw [schedule_show_delayed d hd, disconnect_hide_show_not_connected w hc]
  rfl

theorem delayed_hide_fires (w : Window) (d : Int) (hd : 0 < d) (hf : timers_fresh w)
    (hc : connected w w.pending_hide = false) (dt : Nat) :
    (dt < d.toNat →
      run [Event.advance dt, Event.timeout w.next_timeout] (schedule_hide d w)
        = run [Event.advance dt] (schedule_hide d w))
    ∧ (d.toNat ≤ dt →
      (run [Event.advance dt, Event.timeout w.next_timeout]
          (schedule_hide d w)).transition.end_value = ((-w.allocated_height : Int) : ℚ)
      ∧ connected (run [Event.advance dt, Event.timeout w.next_timeout] (schedule_hide d w))
          (run [Event.advance dt, Event.timeout w.next_timeout]
            (schedule_hide d w)).pending_hide = false
      ∧ ∀ t ∈ (run [Event.advance dt, Event.timeout w.next_timeout]
            (schedule_hide d w)).timeouts, t.id ≠ w.next_timeout) := by
  have hd0 : d ≠ 0 := by omega
  have hfd := timers_fresh_disconnect_show w hf
  have hn : (disconnect_show w).next_timeout = w.next_timeout := by rw [disconnect_show_frame]
  have hnow : (disconnect_show w).now = w.now := by rw [disconnect_show_frame]
  have hh : (disconnect_show w).allocated_height = w.allocated_height := by
    rw [disconnect_show_frame]
  have hfresh : ∀ t ∈ (disconnect_show w).timeouts, t.id ≠ w.next_timeout := by
    intro t ht
    have := hfd t ht
    rw [hn] at this
    omega
  simp only [run, List.foldl, step]
  rw [schedule_hide_arms d hd0 w hc]
  simp only []
  rw [any_fresh_timeout (disconnect_show w).timeouts
    { id := w.next_timeout, interval := d, action := TimerAction.m_do_hide,
      due := w.now + d.toNat } _ hfresh]
  simp only [hnow]
  constructor
  · intro hlt
    have : ¬ (w.now + d.toNat ≤ w.now + dt) := by omega
    simp only [this, decide_False, Bool.false_eq_true, if_false]
  · intro hle
    have : w.now + d.toNat ≤ w.now + dt := by omega
    simp only [this, decide_True, if_true]
    have key := fire_fresh_hide
      { disconnect_show w with
          now := w.now + dt,
          timeouts := (disconnect_show w).timeouts ++
            [{ id := w.next_timeout, interval := d, action := TimerAction.m_do_hide,
               due := w.now + d.toNat }],
          next_timeout := w.next_timeout + 1,
          pending_hide := some w.next_timeout }
      { id := w.next_timeout, interval := d, action := TimerAction.m_do_hide,
        due := w.now + d.toNat }
      (disconnect_show w).timeouts rfl hfresh rfl rfl
    refine ⟨?_, key.2.2.1, key.2.2.2⟩
    rw [← hh]
    exact key.1

theorem delayed_show_fires (w : Window) (d : Int) (hd : 0 < d) (hf : timers_fresh w)
    (hc : connected w w.pending_show = false) (dt : Nat) :
    (dt < d.toNat →
      run [Event.advance dt, Event.timeout w.next_timeout] (schedule_show d w)
        = run [Event.advance dt] (schedule_show d w))
    ∧ (d.toNat ≤ dt →
      (run [Event.advance dt, Event.timeout w.next_timeout]
          (schedule_show d w)).transition.end_value = 0
      ∧ connected (run [Event.advance dt, Event.timeout w.next_timeout] (schedule_show d w))
          (run [Event.advance dt, Event.timeout w.next_timeout]
            (schedule_show d w)).pending_show = false
      ∧ ∀ t ∈ (run [Event.advance dt, Event.timeout w.next_timeout]
            (schedule_show d w)).timeouts, t.id ≠ w.next_timeout) := by
  have hd0 : d ≠ 0 := by omega
  have hfd := timers_fresh_disconnect_hide w hf
  have hn : (disconnect_hide w).next_timeout = w.next_timeout := by rw [disconnect_hide_frame]
  have hnow : (disconnect_hide w).now = w.now := by rw [disconnect_hide_frame]
  have hfresh : ∀ t ∈ (disconnect_hide w).timeouts, t.id ≠ w.next_timeout := by
    intro t ht
    have := hfd t ht
    rw [hn] at this
    omega
  simp only [run, List.foldl, step]
  rw [schedule_show_arms d hd0 w hc]
  simp only []
  rw [any_fresh_timeout (disconnect_hide w).timeouts
    { id := w.next_timeout, interval := d, action := TimerAction.m_do_show,
      due := w.now + d.toNat } _ hfresh]
  simp only [hnow]
  constructor
  · intro hlt
    have : ¬ (w.now + d.toNat ≤ w.now + dt) := by omega
    simp only [this, decide_False, Bool.false_eq_true, if_false]
  · intro hle
    have : w.now + d.toNat ≤ w.now + dt := by omega
    simp only [this, decide_True, if_true]
    have key := fire_fresh_show
      { disconnect_hide w with
          now := w.now + dt,
          timeouts := (disconnect_hide w).timeouts ++
            [{ id := w.next_timeout, interval := d, action := TimerAction.m_do_show,
               due := w.now + d.toNat }],
          next_timeout := w.next_timeout + 1,
          pending_show := some w.next_timeout }
      { id := w.next_timeout, interval := d, action := TimerAction.m_do_show,
        due := w.now + d.toNat }
      (disconnect_hide w).timeouts rfl hfresh rfl rfl
    exact ⟨key.1, key.2.2.1, key.2.2.2⟩

theorem timers_fresh_constructor (output_valid : Bool) (height : Int) :
    timers_fresh (constructor output_valid height) :=
  (scheduler_invariant_constructor output_valid height).1

theorem no_orphans_congr (w v : Window) (h : timer_view v = timer_view w)
    (hi : no_orphans w) : no_orphans v := by
  simp only [timer_view, Prod.mk.injEq] at h
  obtain ⟨h1, _, h3, h4, _⟩ := h
  unfold no_orphans timer_owned at *
  rw [h1, h3, h4]
  exact hi

theorem remove_timeout_ids_nodup (id : Nat) (l : List Timeout)
    (h : (l.map Timeout.id).Nodup) : ((remove_timeout id l).map Timeout.id).Nodup :=
  List.Nodup.sublist (List.Sublist.map _ (List.filter_sublist l)) h

theorem mem_remove_timeout (id : Nat) (l : List Timeout) (t : Timeout) :
    t ∈ remove_timeout id l ↔ t ∈ l ∧ t.id ≠ id := by
  simp [remove_timeout]

theorem no_orphans_disconnect_show (w : Window) (h : no_orphans w) :
    no_orphans (disconnect_show w) := by
  unfold disconnect_show
  cases hp : w.pending_show with
  | none => exact h
  | some id =>
    refine ⟨remove_timeout_ids_nodup id _ h.1, ?_⟩
    intro t ht
    obtain ⟨ht1, ht2⟩ := (mem_remove_timeout id _ t).mp ht
    rcases h.2 t ht1 with ⟨hs, _⟩ | hh
    · rw [hp] at hs
      exact absurd (Option.some.inj hs).symm ht2
    · exact Or.inr hh

theorem no_orphans_disconnect_hide (w : Window) (h : no_orphans w) :
    no_orphans (disconnect_hide w) := by
  unfold disconnect_hide
  cases hp : w.pending_hide with
  | none => exact h
  | some id =>
    refine ⟨remove_timeout_ids_nodup id _ h.1, ?_⟩
    intro t ht
    obtain ⟨ht1, ht2⟩ := (mem_remove_timeout id _ t).mp ht
    rcases h.2 t ht1 with hs | ⟨hh, _⟩
    · exact Or.inl hs
    · rw [hp] at hh
      exact absurd (Option.some.inj hh).symm ht2

theorem fresh_ids_nodup (l : List Timeout) (x : Timeout)
    (h : (l.map Timeout.id).Nodup) (hf : ∀ t ∈ l, t.id < x.id) :
    ((l ++ [x]).map Timeout.id).Nodup := by
  rw [List.map_append, List.nodup_append]
  refine ⟨h, List.nodup_singleton _, ?_⟩
  intro a ha hb
  simp only [List.map_cons, List.map_nil, List.mem_singleton] at hb
  obtain ⟨t, ht, rfl⟩ := List.mem_map.mp ha
  have := hf t ht
  omega

/-- Arming the hide connection while it is not connected keeps every timeout
owned. -/
theorem no_orphans_arm_hide (v : Window) (x : Timeout) (hx : x.id = v.next_timeout)
    (hk : is_hide_timer x = true) (hf : timers_fresh v) (h : no_orphans v)
    (hc : connected v v.pending_hide = false) :
    no_orphans { v with timeouts := v.timeouts ++ [x],
                        next_timeout := v.next_timeout + 1,
                        pending_hide := some v.next_timeout } := by
  refine ⟨fresh_ids_nodup _ x h.1 (fun t ht => by rw [hx]; exact hf t ht), ?_⟩
  intro t ht
  rcases List.mem_append.mp ht with ht | ht
  · rcases h.2 t ht with hs | ⟨hh, _⟩
    · exact Or.inl hs
    · rw [hh, (connected_iff v t.id).mpr ⟨t, ht, rfl⟩] at hc
      cases hc
  · rw [List.mem_singleton.mp ht]
    exact Or.inr ⟨by rw [hx], hk⟩

theorem no_orphans_arm_show (v : Window) (x : Timeout) (hx : x.id = v.next_timeout)
    (hk : is_show_timer x = true) (hf : timers_fresh v) (h : no_orphans v)
    (hc : connected v v.pending_show = false) :
    no_orphans { v with timeouts := v.timeouts ++ [x],
                        next_timeout := v.next_timeout + 1,
                        pending_show := some v.next_timeout } := by
  refine ⟨fresh_ids_nodup _ x h.1 (fun t ht => by rw [hx]; exact hf t ht), ?_⟩
  intro t ht
  rcases List.mem_append.mp ht with ht | ht
  · rcases h.2 t ht with ⟨hs, _⟩ | hh
    · rw [hs, (connected_iff v t.id).mpr ⟨t, ht, rfl⟩] at hc
      cases hc
    · exact Or.inr hh
  · rw [List.mem_singleton.mp ht]
    exact Or.inl ⟨by rw [hx], hk⟩

theorem no_orphans_schedule_hide (d : Int) (w : Window) (hf : timers_fresh w)
    (h : no_orphans w) : no_orphans (schedule_hide d w) := by
  have h1 := no_orphans_disconnect_show w h
  by_cases hd : d = 0
  · subst hd
    rw [schedule_hide_zero]
    exact no_orphans_congr _ _ (timer_view_m_do_hide _) h1
  · rw [schedule_hide_delayed d hd]
    have hn : (disconnect_show w).next_timeout = w.next_timeout := by
      rw [disconnect_show_frame]
    split
    · exact h1
    · rename_i hc
      rw [← hn]
      exact no_orphans_arm_hide (disconnect_show w) _ rfl rfl
        (timers_fresh_disconnect_show w hf) h1 (by simpa using hc)

theorem no_orphans_schedule_show (d : Int) (w : Window) (hf : timers_fresh w)
    (h : no_orphans w) : no_orphans (schedule_show d w) := by
  have h1 := no_orphans_disconnect_hide w h
  by_cases hd : d = 0
  · subst hd
    rw [schedule_show_zero]
    exact no_orphans_congr _ _ (timer_view_m_do_show _) h1
  · rw [schedule_show_delayed d hd]
    have hn : (disconnect_hide w).next_timeout = w.next_timeout := by
      rw [disconnect_hide_frame]
    split
    · exact h1
    · rename_i hc
      rw [← hn]
      exact no_orphans_arm_show (disconnect_hide w) _ rfl rfl
        (timers_fresh_disconnect_hide w hf) h1 (by simpa using hc)

/-- The assignment to `pending_hide` in `m_show_uncertain` finds the connection
not connected: `schedule_show` has just disconnected it. -/
theorem m_show_uncertain_assigns_disconnected (w : Window) :
    connected (schedule_show 16 w) (schedule_show 16 w).pending_hide = false := by
  rw [schedule_show_pending_hide]
  rfl

theorem no_orphans_m_show_uncertain (w : Window) (hf : timers_fresh w) (h : no_orphans w) :
    no_orphans (m_show_uncertain w) := by
  have h1 := no_orphans_schedule_show 16 w hf h
  have hf1 := timers_fresh_schedule_show 16 w hf
  unfold m_show_uncertain
  simp only [signal_timeout_connect]
  split
  · exact no_orphans_arm_hide (schedule_show 16 w) _ rfl rfl hf1 h1
      (m_show_uncertain_assigns_disconnected w)
  · exact h1

theorem no_orphans_update_position (w : Window) (hf : timers_fresh w) (h : no_orphans w) :
    no_orphans (update_position w) := by
  rw [update_position_eq]
  have hv : ∀ x : Window, timer_view x = timer_view w → no_orphans (m_show_uncertain x) := by
    intro x hx
    have hfx : timers_fresh x := by
      simp only [timer_view, Prod.mk.injEq] at hx
      intro t ht
      rw [hx.1] at ht
      rw [hx.2.1]
      exact hf t ht
    exact no_orphans_m_show_uncertain x hfx (no_orphans_congr w x hx h)
  apply hv
  rw [timer_view_setup_hotspot]
  rfl

theorem no_orphans_increase_autohide (w : Window) (hf : timers_fresh w) (h : no_orphans w) :
    no_orphans (increase_autohide w) := by
  unfold increase_autohide
  simp only []
  split
  · exact no_orphans_schedule_hide 0 _ hf h
  · exact h

theorem no_orphans_decrease_autohide (w : Window) (hf : timers_fresh w) (h : no_orphans w) :
    no_orphans (decrease_autohide w) := by
  unfold decrease_autohide
  simp only []
  split
  · exact no_orphans_schedule_show 0 _ hf h
  · exact h

theorem no_orphans_panel_on_enter (w : Window) (h : no_orphans w) :
    no_orphans (panel_on_enter w) := by
  unfold panel_on_enter
  split
  · exact no_orphans_disconnect_hide w h
  · exact h

theorem no_orphans_panel_on_leave (w : Window) (hf : timers_fresh w) (h : no_orphans w) :
    no_orphans (panel_on_leave w) := by
  unfold panel_on_leave
  split
  · exact no_orphans_schedule_hide 300 w hf h
  · exact h

theorem no_orphans_set_position (p : wf_option) (w : Window) (hf : timers_fresh w)
    (h : no_orphans w) : no_orphans ((set_position (some p) w).getD w) := by
  simp only [set_position, Option.getD_some]
  exact no_orphans_update_position _ hf h

theorem no_orphans_on_option_updated (id : Nat) (v : String) (w : Window)
    (hf : timers_fresh w) (h : no_orphans w) : no_orphans (on_option_updated id v w) := by
  have hv : timers_fresh
        (if w.m_position.id = id then
          { w with m_position := { w.m_position with value := v } } else w)
      ∧ no_orphans
        (if w.m_position.id = id then
          { w with m_position := { w.m_position with value := v } } else w) := by
    split
    · exact ⟨hf, h⟩
    · exact ⟨hf, h⟩
  have key : ∀ x : Window, timers_fresh x → no_orphans x →
      no_orphans (if id ∈ x.subscribed then update_position x else x) := by
    intro x hfx hx
    split
    · exact no_orphans_update_position x hfx hx
    · exact hx
  exact key _ hv.1 hv.2

theorem no_orphans_on_size_allocate (height : Int) (w : Window) (h : no_orphans w) :
    no_orphans (on_size_allocate height w) := by
  unfold on_size_allocate
  apply no_orphans_congr w _ _ h
  rw [timer_view_setup_hotspot, timer_view_set_auto_exclusive_zone]
  rfl

theorem no_orphans_after_removal (w : Window) (id : Nat) (h : no_orphans w) :
    no_orphans
      { w with
          timeouts := remove_timeout id w.timeouts,
          pending_show := if w.pending_show = some id then none else w.pending_show,
          pending_hide := if w.pending_hide = some id then none else w.pending_hide } := by
  refine ⟨remove_timeout_ids_nodup id _ h.1, ?_⟩
  intro t ht
  obtain ⟨ht1, ht2⟩ := (mem_remove_timeout id _ t).mp ht
  have hne : some t.id ≠ some id := fun e => ht2 (Option.some.inj e)
  rcases h.2 t ht1 with ⟨hs, hk⟩ | ⟨hh, hk⟩
  · refine Or.inl ⟨?_, hk⟩
    show (if w.pending_show = some id then none else w.pending_show) = some t.id
    rw [hs, if_neg hne]
  · refine Or.inr ⟨?_, hk⟩
    show (if w.pending_hide = some id then none else w.pending_hide) = some t.id
    rw [hh, if_neg hne]

theorem no_orphans_run_action (a : TimerAction) (w : Window) (hf : timers_fresh w)
    (h : no_orphans w) : no_orphans (run_action a w) := by
  cases a with
  | m_do_hide => exact no_orphans_congr w _ (timer_view_m_do_hide w) h
  | m_do_show => exact no_orphans_congr w _ (timer_view_m_do_show w) h
  | uncertain_hide => exact no_orphans_schedule_hide 0 w hf h

theorem no_orphans_fire_timeout (id : Nat) (w : Window) (hf : timers_fresh w)
    (h : no_orphans w) : no_orphans (fire_timeout id w) := by
  unfold fire_timeout
  split
  · exact h
  · rename_i t _
    exact no_orphans_after_removal _ id (no_orphans_run_action t.action w hf h)

theorem no_orphans_step (w : Window) (e : Event) (hf : timers_fresh w) (h : no_orphans w) :
    no_orphans (step w e) := by
  cases e with
  | set_position p => exact no_orphans_set_position p w hf h
  | option_updated id v => exact no_orphans_on_option_updated id v w hf h
  | set_animation_duration d => exact no_orphans_congr w _ rfl h
  | set_auto_exclusive_zone b =>
    exact no_orphans_congr w _ (timer_view_set_auto_exclusive_zone b w) h
  | increase_autohide => exact no_orphans_increase_autohide w hf h
  | decrease_autohide => exact no_orphans_decrease_autohide w hf h
  | schedule_hide d => exact no_orphans_schedule_hide d w hf h
  | schedule_show d => exact no_orphans_schedule_show d w hf h
  | size_allocate height => exact no_orphans_on_size_allocate height w h
  | draw => exact no_orphans_congr w _ (timer_view_update_margin w) h
  | edge_enter =>
    show no_orphans (if w.edge_hotspot.isSome then edge_on_enter w else w)
    split
    · exact no_orphans_schedule_show 0 w hf h
    · exact h
  | edge_leave =>
    show no_orphans (if w.edge_hotspot.isSome then edge_on_leave w else w)
    split <;> exact h
  | panel_enter =>
    show no_orphans (if w.panel_hotspot.isSome then panel_on_enter w else w)
    split
    · exact no_orphans_panel_on_enter w h
    · exact h
  | panel_leave =>
    show no_orphans (if w.panel_hotspot.isSome then panel_on_leave w else w)
    split
    · exact no_orphans_panel_on_leave w hf h
    · exact h
  | timeout id =>
    show no_orphans
      (if w.timeouts.any (fun t => t.id == id && decide (t.due ≤ w.now)) then fire_timeout id w
       else w)
    split
    · exact no_orphans_fire_timeout id w hf h
    · exact h
  | advance ms => exact no_orphans_congr w _ rfl h

theorem no_orphans_run (es : List Event) :
    ∀ w : Window, scheduler_invariant w → no_orphans w → no_orphans (run es w) := by
  induction es with
  | nil => intro w _ h; exact h
  | cons e es ih =>
    intro w hs h
    exact ih (step w e) (scheduler_invariant_step w e hs) (no_orphans_step w e hs.1 h)

theorem no_orphans_constructor (output_valid : Bool) (height : Int) :
    no_orphans (constructor output_valid height) := by
  refine ⟨?_, ?_⟩
  · simp [constructor, set_animation_duration]
  · intro t ht
    simp [constructor, set_animation_duration] at ht

theorem no_orphans_of_reachable (w : Window) (h : Reachable w) : no_orphans w := by
  obtain ⟨ov, height, es, rfl⟩ := h
  exact no_orphans_run es _ (scheduler_invariant_constructor ov height)
    (no_orphans_constructor ov height)

/-- Among timeouts with distinct identifiers, those of a kind whose members all
carry the same identifier are at most one. -/
theorem at_most_one_of_same_id (p : Timeout → Bool) (l : List Timeout)
    (hn : (l.map Timeout.id).Nodup)
    (hs : ∀ a ∈ l, ∀ b ∈ l, p a = true → p b = true → a.id = b.id) :
    (l.filter p).length ≤ 1 := by
  induction l with
  | nil => simp
  | cons a l ih =>
    rw [List.map_cons, List.nodup_cons] at hn
    have ih' := ih hn.2 (fun x hx y hy => hs x (List.mem_cons_of_mem _ hx) y
      (List.mem_cons_of_mem _ hy))
    by_cases hpa : p a = true
    · have hnil : l.filter p = [] := by
        rw [List.filter_eq_nil_iff]
        intro b hb hpb
        have e := hs a (List.mem_cons_self _ _) b (List.mem_cons_of_mem _ hb) hpa hpb
        exact hn.1 (List.mem_map.mpr ⟨b, hb, e.symm⟩)
      simp [List.filter_cons, hpa, hnil]
    · simp only [List.filter_cons, hpa, Bool.false_eq_true, if_false]
      exact ih'

theorem owned_hide (w : Window) (t : Timeout) (ho : timer_owned w t)
    (hk : is_hide_timer t = true) : w.pending_hide = some t.id := by
  rcases ho with ⟨_, hs⟩ | ⟨hh, _⟩
  · simp only [is_hide_timer, is_show_timer] at hk hs
    simp_all
  · exact hh

theorem owned_show (w : Window) (t : Timeout) (ho : timer_owned w t)
    (hk : is_show_timer t = true) : w.pending_show = some t.id := by
  rcases ho with ⟨hs, _⟩ | ⟨_, hh⟩
  · exact hs
  · simp only [is_hide_timer, is_show_timer] at hk hh
    simp_all

/-! ## The exact effect of a position change on the timers -/

theorem m_show_uncertain_exact (v : Window) :
    (m_show_uncertain v).pending_show = (schedule_show 16 v).pending_show
    ∧ (m_show_uncertain v).timeouts
        = (schedule_show 16 v).timeouts ++
            (if is_autohide v then
              [fallback_hide (schedule_show 16 v).next_timeout (schedule_show 16 v).now]
             else [])
    ∧ (m_show_uncertain v).next_timeout
        = (schedule_show 16 v).next_timeout + (if is_autohide v then 1 else 0) := by
  have ha := is_autohide_schedule_show 16 v
  unfold m_show_uncertain
  simp only [signal_timeout_connect, ha]
  cases hv : is_autohide v with
  | false => simp
  | true => simp [fallback_hide]

theorem schedule_show_kept (d : Int) (hd : d ≠ 0) (v : Window)
    (h : connected (disconnect_hide v) v.pending_show = true) :
    schedule_show d v = disconnect_hide v := by
  rw [schedule_show_delayed d hd, disconnect_hide_pending_show, if_pos h]

theorem schedule_show_armed (d : Int) (hd : d ≠ 0) (v : Window)
    (h : connected (disconnect_hide v) v.pending_show = false) :
    schedule_show d v =
      { disconnect_hide v with
          timeouts := (disconnect_hide v).timeouts ++
            [{ id := v.next_timeout, interval := d, action := TimerAction.m_do_show,
               due := v.now + d.toNat }],
          next_timeout := v.next_timeout + 1,
          pending_show := some v.next_timeout } := by
  rw [schedule_show_delayed d hd, disconnect_hide_pending_show, h]
  rfl

/-- Cancelling the hide does not touch a show that has a timeout of its own. -/
theorem connected_show_after_disconnect_hide (w : Window)
    (h : w.pending_show ≠ w.pending_hide) :
    connected (disconnect_hide w) w.pending_show = connected w w.pending_show := by
  unfold disconnect_hide
  cases hh : w.pending_hide with
  | none => rfl
  | some j =>
    cases hs : w.pending_show with
    | none => rfl
    | some i =>
      have hij : i ≠ j := by
        intro e
        apply h
        rw [hs, hh, e]
      simp only [connected, remove_timeout, List.any_filter]
      congr 1
      funext t
      by_cases e : t.id = i
      · have : t.id ≠ j := by rw [e]; exact hij
        simp [e, hij]
      · simp [e]

theorem disconnect_hide_eq_of_view (v w : Window) (h : timer_view v = timer_view w) :
    (disconnect_hide v).timeouts = (disconnect_hide w).timeouts
    ∧ (disconnect_hide v).pending_show = w.pending_show
    ∧ (disconnect_hide v).next_timeout = w.next_timeout := by
  simp only [timer_view, Prod.mk.injEq] at h
  obtain ⟨e1, e2, e3, e4, _⟩ := h
  unfold disconnect_hide
  rw [e4]
  cases w.pending_hide with
  | none => exact ⟨e1, e3, e2⟩
  | some j =>
    refine ⟨?_, e3, e2⟩
    show remove_timeout j v.timeouts = remove_timeout j w.timeouts
    rw [e1]

theorem update_position_exact (w : Window) :
    (connected (disconnect_hide w) w.pending_show = true →
      (update_position w).pending_show = w.pending_show
      ∧ (update_position w).timeouts
          = (disconnect_hide w).timeouts ++
              (if is_autohide w then [fallback_hide w.next_timeout w.now] else [])
      ∧ (update_position w).next_timeout
          = w.next_timeout + (if is_autohide w then 1 else 0))
    ∧ (connected (disconnect_hide w) w.pending_show = false →
      (update_position w).pending_show = some w.next_timeout
      ∧ (update_position w).timeouts
          = (disconnect_hide w).timeouts ++ [settle_show w.next_timeout w.now] ++
              (if is_autohide w then [fallback_hide (w.next_timeout + 1) w.now] else [])
      ∧ (update_position w).next_timeout
          = w.next_timeout + 1 + (if is_autohide w then 1 else 0)) := by
  have h16 : (16 : Int) ≠ 0 := by decide
  rw [update_position_eq]
  generalize hv : setup_hotspot _ = v
  have hnow : v.now = w.now := by
    rw [← hv, setup_hotspot_frame]
  have hview : timer_view v = timer_view w := by
    rw [← hv, timer_view_setup_hotspot]
    rfl
  obtain ⟨d1, d2, d3⟩ := disconnect_hide_eq_of_view v w hview
  have hdn : (disconnect_hide v).now = w.now := by
    rw [disconnect_hide_frame]
    exact hnow
  simp only [timer_view, Prod.mk.injEq] at hview
  obtain ⟨e1, e2, e3, e4, e5⟩ := hview
  have hau : is_autohide v = is_autohide w := by
    simp only [is_autohide, e5]
  have hc : connected (disconnect_hide v) v.pending_show
      = connected (disconnect_hide w) w.pending_show := by
    rw [e3]
    cases w.pending_show with
    | none => rfl
    | some i => simp only [connected, d1]
  obtain ⟨m1, m2, m3⟩ := m_show_uncertain_exact v
  rw [m1, m2, m3, hau]
  constructor
  · intro hk
    rw [schedule_show_kept 16 h16 v (hc.trans hk), d1, d2, d3, hdn]
    exact ⟨rfl, rfl, rfl⟩
  · intro ha
    rw [schedule_show_armed 16 h16 v (hc.trans ha)]
    have h16n : (16 : Int).toNat = 16 := rfl
    simp [d1, e2, hnow, hdn, settle_show, h16n]

theorem connections_distinct_congr (w v : Window) (h : timer_view v = timer_view w)
    (hi : connections_distinct w) : connections_distinct v := by
  simp only [timer_view, Prod.mk.injEq] at h
  obtain ⟨_, h2, h3, h4, _⟩ := h
  unfold connections_distinct at *
  rw [h2, h3, h4]
  exact hi

theorem connections_distinct_disconnect_show (w : Window) (h : connections_distinct w) :
    connections_distinct (disconnect_show w) := by
  rw [disconnect_show_frame]
  refine ⟨?_, h.2.1, ?_⟩
  · intro i hi
    cases hi
  · intro i hi
    cases hi

theorem connections_distinct_disconnect_hide (w : Window) (h : connections_distinct w) :
    connections_distinct (disconnect_hide w) := by
  rw [disconnect_hide_frame]
  refine ⟨h.1, ?_, ?_⟩
  · intro i hi
    cases hi
  · intro i _ hi
    cases hi

theorem connections_distinct_arm_hide (v : Window) (x : Timeout)
    (h : connections_distinct v) :
    connections_distinct { v with timeouts := v.timeouts ++ [x],
                                  next_timeout := v.next_timeout + 1,
                                  pending_hide := some v.next_timeout } := by
  refine ⟨?_, ?_, ?_⟩
  · intro i hi
    have := h.1 i hi
    show i < v.next_timeout + 1
    omega
  · intro i hi
    have : v.next_timeout = i := Option.some.inj hi
    show i < v.next_timeout + 1
    omega
  · intro i hi hj
    have e : v.next_timeout = i := Option.some.inj hj
    have := h.1 i hi
    omega

theorem connections_distinct_arm_show (v : Window) (x : Timeout)
    (h : connections_distinct v) :
    connections_distinct { v with timeouts := v.timeouts ++ [x],
                                  next_timeout := v.next_timeout + 1,
                                  pending_show := some v.next_timeout } := by
  refine ⟨?_, ?_, ?_⟩
  · intro i hi
    have : v.next_timeout = i := Option.some.inj hi
    show i < v.next_timeout + 1
    omega
  · intro i hi
    have := h.2.1 i hi
    show i < v.next_timeout + 1
    omega
  · intro i hi hj
    have e : v.next_timeout = i := Option.some.inj hi
    have := h.2.1 i hj
    omega

theorem connections_distinct_schedule_hide (d : Int) (w : Window)
    (h : connections_distinct w) : connections_distinct (schedule_hide d w) := by
  have h1 := connections_distinct_disconnect_show w h
  by_cases hd : d = 0
  · subst hd
    rw [schedule_hide_zero]
    exact connections_distinct_congr _ _ (timer_view_m_do_hide _) h1
  · rw [schedule_hide_delayed d hd]
    have hn : (disconnect_show w).next_timeout = w.next_timeout := by
      rw [disconnect_show_frame]
    split
    · exact h1
    · rw [← hn]
      exact connections_distinct_arm_hide (disconnect_show w) _ h1

theorem connections_distinct_schedule_show (d : Int) (w : Window)
    (h : connections_distinct w) : connections_distinct (schedule_show d w) := by
  have h1 := connections_distinct_disconnect_hide w h
  by_cases hd : d = 0
  · subst hd
    rw [schedule_show_zero]
    exact connections_distinct_congr _ _ (timer_view_m_do_show _) h1
  · rw [schedule_show_delayed d hd]
    have hn : (disconnect_hide w).next_timeout = w.next_timeout := by
      rw [disconnect_hide_frame]
    split
    · exact h1
    · rw [← hn]
      exact connections_distinct_arm_show (disconnect_hide w) _ h1

theorem connections_distinct_m_show_uncertain (w : Window) (h : connections_distinct w) :
    connections_distinct (m_show_uncertain w) := by
  have h1 := connections_distinct_schedule_show 16 w h
  unfold m_show_uncertain
  simp only [signal_timeout_connect]
  split
  · exact connections_distinct_arm_hide (schedule_show 16 w) _ h1
  · exact h1

theorem connections_distinct_update_position (w : Window) (h : connections_distinct w) :
    connections_distinct (update_position w) := by
  rw [update_position_eq]
  apply connections_distinct_m_show_uncertain
  apply connections_distinct_congr w _ _ h
  rw [timer_view_setup_hotspot]
  rfl

theorem connections_distinct_increase_autohide (w : Window) (h : connections_distinct w) :
    connections_distinct (increase_autohide w) := by
  unfold increase_autohide
  simp only []
  split
  · exact connections_distinct_schedule_hide 0 _ h
  · exact h

theorem connections_distinct_decrease_autohide (w : Window) (h : connections_distinct w) :
    connections_distinct (decrease_autohide w) := by
  unfold decrease_autohide
  simp only []
  split
  · exact connections_distinct_schedule_show 0 _ h
  · exact h

theorem connections_distinct_panel_on_enter (w : Window) (h : connections_distinct w) :
    connections_distinct (panel_on_enter w) := by
  unfold panel_on_enter
  split
  · exact connections_distinct_disconnect_hide w h
  · exact h

theorem connections_distinct_panel_on_leave (w : Window) (h : connections_distinct w) :
    connections_distinct (panel_on_leave w) := by
  unfold panel_on_leave
  split
  · exact connections_distinct_schedule_hide 300 w h
  · exact h

theorem connections_distinct_on_option_updated (id : Nat) (v : String) (w : Window)
    (h : connections_distinct w) : connections_distinct (on_option_updated id v w) := by
  have hv : connections_distinct
        (if w.m_position.id = id then
          { w with m_position := { w.m_position with value := v } } else w) := by
    split
    · exact h
    · exact h
  have key : ∀ x : Window, connections_distinct x →
      connections_distinct (if id ∈ x.subscribed then update_position x else x) := by
    intro x hx
    split
    · exact connections_distinct_update_position x hx
    · exact hx
  exact key _ hv

theorem connections_distinct_after_removal (w : Window) (id : Nat)
    (h : connections_distinct w) :
    connections_distinct
      { w with
          timeouts := remove_timeout id w.timeouts,
          pending_show := if w.pending_show = some id then none else w.pending_show,
          pending_hide := if w.pending_hide = some id then none else w.pending_hide } := by
  have hs : ∀ i, (if w.pending_show = some id then none else w.pending_show) = some i →
      w.pending_show = some i := by
    intro i hi
    split at hi
    · cases hi
    · exact hi
  have hh : ∀ i, (if w.pending_hide = some id then none else w.pending_hide) = some i →
      w.pending_hide = some i := by
    intro i hi
    split at hi
    · cases hi
    · exact hi
  refine ⟨fun i hi => h.1 i (hs i hi), fun i hi => h.2.1 i (hh i hi), ?_⟩
  intro i hi hj
  exact h.2.2 i (hs i hi) (hh i hj)

theorem connections_distinct_fire_timeout (id : Nat) (w : Window)
    (h : connections_distinct w) : connections_distinct (fire_timeout id w) := by
  unfold fire_timeout
  split
  · exact h
  · rename_i t _
    apply connections_distinct_after_removal
    cases t.action with
    | m_do_hide => exact connections_distinct_congr w _ (timer_view_m_do_hide w) h
    | m_do_show => exact connections_distinct_congr w _ (timer_view_m_do_show w) h
    | uncertain_hide => exact connections_distinct_schedule_hide 0 w h

theorem connections_distinct_step (w : Window) (e : Event) (h : connections_distinct w) :
    connections_distinct (step w e) := by
  cases e with
  | set_position p =>
    show connections_distinct ((set_position (some p) w).getD w)
    simp only [set_position, Option.getD_some]
    exact connections_distinct_update_position _ h
  | option_updated id v => exact connections_distinct_on_option_updated id v w h
  | set_animation_duration d => exact connections_distinct_congr w _ rfl h
  | set_auto_exclusive_zone b =>
    exact connections_distinct_congr w _ (timer_view_set_auto_exclusive_zone b w) h
  | increase_autohide => exact connections_distinct_increase_autohide w h
  | decrease_autohide => exact connections_distinct_decrease_autohide w h
  | schedule_hide d => exact connections_distinct_schedule_hide d w h
  | schedule_show d => exact connections_distinct_schedule_show d w h
  | size_allocate height =>
    show connections_distinct (on_size_allocate height w)
    unfold on_size_allocate
    apply connections_distinct_congr w _ _ h
    rw [timer_view_setup_hotspot, timer_view_set_auto_exclusive_zone]
    rfl
  | draw => exact connections_distinct_congr w _ (timer_view_update_margin w) h
  | edge_enter =>
    show connections_distinct (if w.edge_hotspot.isSome then edge_on_enter w else w)
    split
    · exact connections_distinct_schedule_show 0 w h
    · exact h
  | edge_leave =>
    show connections_distinct (if w.edge_hotspot.isSome then edge_on_leave w else w)
    split <;> exact h
  | panel_enter =>
    show connections_distinct (if w.panel_hotspot.isSome then panel_on_enter w else w)
    split
    · exact connections_distinct_panel_on_enter w h
    · exact h
  | panel_leave =>
    show connections_distinct (if w.panel_hotspot.isSome then panel_on_leave w else w)
    split
    · exact connections_distinct_panel_on_leave w h
    · exact h
  | timeout id =>
    show connections_distinct
      (if w.timeouts.any (fun t => t.id == id && decide (t.due ≤ w.now)) then fire_timeout id w
       else w)
    split
    · exact connections_distinct_fire_timeout id w h
    · exact h
  | advance ms => exact connections_distinct_congr w _ rfl h

theorem connections_distinct_run (es : List Event) :
    ∀ w : Window, connections_distinct w → connections_distinct (run es w) := by
  induction es with
  | nil => intro w h; exact h
  | cons e es ih =>
    intro w h
    exact ih (step w e) (connections_distinct_step w e h)

theorem connections_distinct_constructor (output_valid : Bool) (height : Int) :
    connections_distinct (constructor output_valid height) := by
  refine ⟨?_, ?_, ?_⟩ <;> intro i hi <;> cases hi

theorem connections_distinct_of_reachable (w : Window) (h : Reachable w) :
    connections_distinct w := by
  obtain ⟨ov, height, es, rfl⟩ := h
  exact connections_distinct_run es _ (connections_distinct_constructor ov height)

/-- In a reachable window a pending show stays pending when the hide is
cancelled. -/
theorem reachable_show_survives_disconnect_hide (w : Window) (hr : Reachable w)
    (hs : connected w w.pending_show = true) :
    connected (disconnect_hide w) w.pending_show = true := by
  have hd := connections_distinct_of_reachable w hr
  have hne : w.pending_show ≠ w.pending_hide := by
    cases hp : w.pending_show with
    | none => rw [hp] at hs; simp [connected] at hs
    | some i =>
      intro e
      exact hd.2.2 i hp e.symm
  rw [connected_show_after_disconnect_hide w hne]
  exact hs

theorem set_position_outcome_agrees (position : Option wf_option) (w : Window) :
    set_position position w = (set_position_outcome position w).toOption := by
  cases position <;> rfl

/-! ## The claims -/

/-- C1, as stated, fails: the invariant "at most one of `pending_hide` and
`pending_show` is connected" is broken by `increase_autohide()` followed by
`set_position(...)`. With autohide active, `m_show_uncertain` arms the 16 ms show
and then the 1000 ms fallback hide, so both connections are connected in a
reachable state. -/
theorem C1_counterexample :
    Reachable (run [Event.increase_autohide, Event.set_position { id := 1, value := "bottom" }]
      (constructor true 40))
    ∧ connected
        (run [Event.increase_autohide, Event.set_position { id := 1, value := "bottom" }]
          (constructor true 40))
        (run [Event.increase_autohide, Event.set_position { id := 1, value := "bottom" }]
          (constructor true 40)).pending_hide = true
    ∧ connected
        (run [Event.increase_autohide, Event.set_position { id := 1, value := "bottom" }]
          (constructor true 40))
        (run [Event.increase_autohide, Event.set_position { id := 1, value := "bottom" }]
          (constructor true 40)).pending_show = true :=
  ⟨⟨true, 40, _, rfl⟩, by decide, by decide⟩

/-- C1, amended: in every state reachable from a freshly constructed window by any
sequence of events, `pending_hide` and `pending_show` are both connected only
while autohide is active and only when the pending hide is the 1000 ms fallback
hide armed by `m_show_uncertain`. So at most one of them is connected whenever
`is_autohide()` is false, and a hide armed by `schedule_hide` never coexists with
a pending show. -/
theorem C1_pending_exclusive (w : Window) (hr : Reachable w)
    (hs : connected w w.pending_show = true) (hh : connected w w.pending_hide = true) :
    is_autohide w = true
    ∧ ∀ t ∈ w.timeouts, w.pending_hide = some t.id →
        t.action = TimerAction.uncertain_hide ∧ t.interval = 1000 := by
  have h := (scheduler_invariant_of_reachable w hr).2.2 hs hh
  refine ⟨?_, h.2⟩
  simpa [is_autohide] using h.1

/-- Witness of C1 (amended): a reachable window with both connections connected. -/
theorem C1_pending_exclusive_witness :
    Reachable (run [Event.increase_autohide, Event.set_position { id := 7, value := "top" }]
      (constructor false 30))
    ∧ is_autohide (run [Event.increase_autohide, Event.set_position { id := 7, value := "top" }]
      (constructor false 30)) = true :=
  ⟨⟨false, 30, _, rfl⟩,
   (C1_pending_exclusive
    (run [Event.increase_autohide, Event.set_position { id := 7, value := "top" }]
      (constructor false 30))
    ⟨false, 30, _, rfl⟩ (by decide) (by decide)).1⟩

/-- C2, as stated, fails: with the counter at 0, `decrease_autohide()` is not a
no-op. In the window that was given a position 1000 ms after its construction
(counter 0, transition resting at -40), the call retargets the transition from
-40 to 0, restarts it and issues a margin update; in the window with a hide
scheduled in 500 ms (counter 0) the call disconnects `pending_hide`. -/
theorem C2_counterexample :
    (run [Event.advance 1000, Event.set_position { id := 1, value := "top" }]
      (constructor true 40)).autohide_counter = 0
    ∧ (run [Event.advance 1000, Event.set_position { id := 1, value := "top" }]
        (constructor true 40)).transition.end_value = -40
    ∧ (decrease_autohide
        (run [Event.advance 1000, Event.set_position { id := 1, value := "top" }]
          (constructor true 40))).transition.end_value = 0
    ∧ (run [Event.advance 1000, Event.set_position { id := 1, value := "top" }]
        (constructor true 40)).transition.start_time = 0
    ∧ (decrease_autohide
        (run [Event.advance 1000, Event.set_position { id := 1, value := "top" }]
          (constructor true 40))).transition.start_time = 1000
    ∧ (decrease_autohide
        (run [Event.advance 1000, Event.set_position { id := 1, value := "top" }]
          (constructor true 40))).calls.length
        = (run [Event.advance 1000, Event.set_position { id := 1, value := "top" }]
            (constructor true 40)).calls.length + 2
    ∧ (run [Event.advance 1000, Event.schedule_hide 500] (constructor true 40)).autohide_counter = 0
    ∧ connected (run [Event.advance 1000, Event.schedule_hide 500] (constructor true 40))
        (run [Event.advance 1000, Event.schedule_hide 500] (constructor true 40)).pending_hide = true
    ∧ connected
        (decrease_autohide (run [Event.advance 1000, Event.schedule_hide 500] (constructor true 40)))
        (decrease_autohide
          (run [Event.advance 1000, Event.schedule_hide 500] (constructor true 40))).pending_hide
        = false := by
  refine ⟨by decide, by decide, by decide, by decide, by decide, by decide, by decide,
    by decide, by decide⟩

/-- C2, amended: for every window whose autohide counter is 0,
`decrease_autohide()` leaves the counter at 0 and performs `schedule_show(0)`:
`pending_hide` is disconnected, the transition is restarted at the current time
from the truncated current progress towards the target 0, and `pending_show` is
left as it was. -/
theorem C2_decrease_autohide_at_zero (w : Window) (h : w.autohide_counter = 0) :
    decrease_autohide w = schedule_show 0 w
    ∧ (decrease_autohide w).autohide_counter = 0
    ∧ connected (decrease_autohide w) (decrease_autohide w).pending_hide = false
    ∧ (decrease_autohide w).pending_show = w.pending_show
    ∧ (decrease_autohide w).transition.end_value = 0
    ∧ (decrease_autohide w).transition.start_value
        = ((double_to_int (w.transition.progress w.now) : Int) : ℚ)
    ∧ (decrease_autohide w).transition.start_time = w.now := by
  have e : decrease_autohide w = schedule_show 0 w := by
    cases w
    simp only at h
    subst h
    simp [decrease_autohide]
  rw [e, schedule_show_zero_eq]
  refine ⟨rfl, h, rfl, rfl, rfl, rfl, rfl⟩

/-- Witness of C2 (amended): the freshly constructed window has counter 0. -/
theorem C2_decrease_autohide_at_zero_witness :
    (constructor true 40).autohide_counter = 0
    ∧ (decrease_autohide (constructor true 40)).autohide_counter = 0
    ∧ (decrease_autohide (constructor true 40)).transition.end_value = 0 :=
  ⟨by decide,
   (C2_decrease_autohide_at_zero (constructor true 40) (by decide)).2.1,
   (C2_decrease_autohide_at_zero (constructor true 40) (by decide)).2.2.2.2.1⟩

/-- C3: for every window, if the autohide counter is 0 then `increase_autohide()`
sets it to 1 and performs `schedule_hide(0)` (so `pending_show` is not connected
afterwards and the target of the transition is minus the allocated height); if
the counter is at least 1 then `increase_autohide()` adds one to the counter and
changes nothing else in the window. -/
theorem C3_increase_autohide (w : Window) :
    (w.autohide_counter = 0 →
      increase_autohide w = schedule_hide 0 { w with autohide_counter := 1 }
      ∧ (increase_autohide w).autohide_counter = 1
      ∧ connected (increase_autohide w) (increase_autohide w).pending_show = false
      ∧ (increase_autohide w).transition.end_value = ((-w.allocated_height : Int) : ℚ))
    ∧ (1 ≤ w.autohide_counter →
      increase_autohide w = { w with autohide_counter := w.autohide_counter + 1 }) := by
  constructor
  · intro h
    have e : increase_autohide w = schedule_hide 0 { w with autohide_counter := 1 } := by
      simp [increase_autohide, h]
    rw [e, schedule_hide_zero_eq]
    exact ⟨rfl, rfl, rfl, rfl⟩
  · intro h
    have hne : ¬ (w.autohide_counter + 1 = 1) := by omega
    simp [increase_autohide, hne]

/-- Witness of C3: the first `increase_autohide()` on a fresh window, and the
second one. -/
theorem C3_increase_autohide_witness :
    (increase_autohide (constructor true 40)).autohide_counter = 1
    ∧ (increase_autohide (constructor true 40)).transition.end_value = ((-40 : Int) : ℚ)
    ∧ increase_autohide (increase_autohide (constructor true 40))
        = { increase_autohide (constructor true 40) with autohide_counter := 1 + 1 } :=
  ⟨((C3_increase_autohide (constructor true 40)).1 (by decide)).2.1,
   ((C3_increase_autohide (constructor true 40)).1 (by decide)).2.2.2,
   (C3_increase_autohide (increase_autohide (constructor true 40))).2 (by decide)⟩

/-- C4: starting from a window whose counter is 0, after every finite sequence of
`increase_autohide()` and `decrease_autohide()` calls the counter is at least 0,
a decrease at 0 leaves it at 0, and `is_autohide()` is true exactly when the
counter is positive. -/
theorem C4_autohide_counter (w : Window) (cs : List AutohideCall) (h : w.autohide_counter = 0) :
    0 ≤ (autohide_calls cs w).autohide_counter
    ∧ ((autohide_calls cs w).autohide_counter = 0 →
        (decrease_autohide (autohide_calls cs w)).autohide_counter = 0)
    ∧ (is_autohide (autohide_calls cs w) = true ↔ 0 < (autohide_calls cs w).autohide_counter) := by
  have h0 := autohide_calls_counter_nonneg cs w (by omega)
  refine ⟨h0, ?_, ?_⟩
  · intro hz
    rw [decrease_autohide_counter, hz]
    rfl
  · simp only [is_autohide, bne_iff_ne, ne_eq]
    omega

/-- Witness of C4: more decreases than increases on a fresh window. -/
theorem C4_autohide_counter_witness :
    (constructor true 40).autohide_counter = 0
    ∧ 0 ≤ (autohide_calls [AutohideCall.decrease, AutohideCall.increase, AutohideCall.increase,
          AutohideCall.decrease, AutohideCall.decrease, AutohideCall.decrease]
          (constructor true 40)).autohide_counter :=
  ⟨by decide,
   (C4_autohide_counter (constructor true 40)
    [AutohideCall.decrease, AutohideCall.increase, AutohideCall.increase,
      AutohideCall.decrease, AutohideCall.decrease, AutohideCall.decrease] (by decide)).1⟩

/-- C5: for every window with counter c at least 1, if c is 1 then
`decrease_autohide()` sets the counter to 0 and performs `schedule_show(0)` (so
`pending_hide` is not connected afterwards and the target of the transition is
0); if c is at least 2 then `decrease_autohide()` subtracts one from the counter,
changes nothing else in the window, and `is_autohide()` stays true. -/
theorem C5_decrease_autohide (w : Window) :
    (w.autohide_counter = 1 →
      decrease_autohide w = schedule_show 0 { w with autohide_counter := 0 }
      ∧ (decrease_autohide w).autohide_counter = 0
      ∧ connected (decrease_autohide w) (decrease_autohide w).pending_hide = false
      ∧ (decrease_autohide w).transition.end_value = 0)
    ∧ (2 ≤ w.autohide_counter →
      decrease_autohide w = { w with autohide_counter := w.autohide_counter - 1 }
      ∧ is_autohide (decrease_autohide w) = true) := by
  constructor
  · intro h
    have e : decrease_autohide w = schedule_show 0 { w with autohide_counter := 0 } := by
      simp [decrease_autohide, h]
    rw [e, schedule_show_zero_eq]
    exact ⟨rfl, rfl, rfl, rfl⟩
  · intro h
    have hm : max (w.autohide_counter - 1) 0 = w.autohide_counter - 1 := by omega
    have hne : ¬ (w.autohide_counter - 1 = 0) := by omega
    have e : decrease_autohide w = { w with autohide_counter := w.autohide_counter - 1 } := by
      simp [decrease_autohide, hm, hne]
    rw [e]
    refine ⟨rfl, ?_⟩
    simp [is_autohide, hne]

/-- Witness of C5: two requesters hold the window hidden; the first release keeps
it in autohide mode, the second one shows it. -/
theorem C5_decrease_autohide_witness :
    is_autohide (decrease_autohide (increase_autohide (increase_autohide (constructor true 40))))
      = true
    ∧ (decrease_autohide (increase_autohide (constructor true 40))).autohide_counter = 0
    ∧ (decrease_autohide (increase_autohide (constructor true 40))).transition.end_value = 0 :=
  ⟨((C5_decrease_autohide (increase_autohide (increase_autohide (constructor true 40)))).2
      (by decide)).2,
   ((C5_decrease_autohide (increase_autohide (constructor true 40))).1 (by decide)).2.1,
   ((C5_decrease_autohide (increase_autohide (constructor true 40))).1 (by decide)).2.2.2⟩

/-- C6: for every string s, `check_position(s)` is s itself when s is the top or
the bottom position string and the top position otherwise; so
`get_anchor_edge(s)` is the top edge or the bottom edge for every s, and its
`assert(false)` is never reached. -/
theorem C6_check_position (s : String) :
    check_position s
      = (if s = WF_WINDOW_POSITION_TOP ∨ s = WF_WINDOW_POSITION_BOTTOM then s
         else WF_WINDOW_POSITION_TOP)
    ∧ (get_anchor_edge s = some GtkLayerShellEdge.TOP
        ∨ get_anchor_edge s = some GtkLayerShellEdge.BOTTOM)
    ∧ get_anchor_edge s ≠ none := by
  refine ⟨check_position_spec s, get_anchor_edge_spec s, ?_⟩
  rcases get_anchor_edge_spec s with h | h <;> simp [h]

/-- C7: for every window with allocated height h, `schedule_hide(0)` leaves
`pending_show` not connected and restarts the transition at the current time with
end value -h and start value the progress at the moment of the call truncated to
an integer; it arms no timer: no identifier is handed out, `pending_hide` is the
connection it was, and every live timeout was live before. -/
theorem C7_schedule_hide_zero (w : Window) :
    connected (schedule_hide 0 w) (schedule_hide 0 w).pending_show = false
    ∧ (schedule_hide 0 w).transition.end_value = ((-w.allocated_height : Int) : ℚ)
    ∧ (schedule_hide 0 w).transition.start_value
        = ((double_to_int (w.transition.progress w.now) : Int) : ℚ)
    ∧ (schedule_hide 0 w).transition.start_time = w.now
    ∧ (schedule_hide 0 w).next_timeout = w.next_timeout
    ∧ (schedule_hide 0 w).pending_hide = w.pending_hide
    ∧ (∀ t, t ∈ (schedule_hide 0 w).timeouts → t ∈ w.timeouts) := by
  rw [schedule_hide_zero_eq]
  exact ⟨rfl, rfl, rfl, rfl, rfl, rfl, disconnect_show_timeouts_sub w⟩

/-- C8: for every window, `schedule_show(0)` sets the end value of the transition
to 0 and leaves `pending_hide` not connected, and after `schedule_hide(0)`
followed by `schedule_show(0)` neither connection is connected. In the scenario
height 40, position top, duration 300 ms, that sequence ends with target 0 and no
live timeout at all. -/
theorem C8_schedule_show_zero :
    (∀ w : Window,
      (schedule_show 0 w).transition.end_value = 0
      ∧ connected (schedule_show 0 w) (schedule_show 0 w).pending_hide = false
      ∧ (schedule_show 0 (schedule_hide 0 w)).transition.end_value = 0
      ∧ connected (schedule_show 0 (schedule_hide 0 w))
          (schedule_show 0 (schedule_hide 0 w)).pending_hide = false
      ∧ connected (schedule_show 0 (schedule_hide 0 w))
          (schedule_show 0 (schedule_hide 0 w)).pending_show = false)
    ∧ (constructor true 40).allocated_height = 40
    ∧ check_position (constructor true 40).m_position.value = WF_WINDOW_POSITION_TOP
    ∧ (constructor true 40).transition.duration = 300
    ∧ (schedule_show 0 (schedule_hide 0 (constructor true 40))).transition.end_value = 0
    ∧ (schedule_show 0 (schedule_hide 0 (constructor true 40))).timeouts = []
    ∧ (schedule_show 0 (schedule_hide 0 (constructor true 40))).pending_hide = none
    ∧ (schedule_show 0 (schedule_hide 0 (constructor true 40))).pending_show = none := by
  have hp : ∀ v : Window, (schedule_show 0 v).pending_show = v.pending_show := by
    intro v
    rw [schedule_show_zero_eq]
  have hh : ∀ v : Window, (schedule_show 0 v).pending_hide = none := by
    intro v
    rw [schedule_show_zero_eq]
  have he : ∀ v : Window, (schedule_show 0 v).transition.end_value = 0 := by
    intro v
    rw [schedule_show_zero_eq]
    rfl
  refine ⟨?_, by decide, by decide, by decide, he _, by decide, by decide, by decide⟩
  intro w
  have hs : (schedule_hide 0 w).pending_show = none := schedule_hide_pending_show 0 w
  refine ⟨he w, ?_, he _, ?_, ?_⟩
  · rw [hh]; rfl
  · rw [hh]; rfl
  · rw [hp, hs]; rfl

/-- C9: scheduling twice in the same direction, both times with a positive delay,
gives exactly the state the first call gives, for `schedule_hide` and for
`schedule_show`. After the first call the connection of that direction is
connected, and when it was not connected before the call the timeout behind it
has the delay of the first call. -/
theorem C9_schedule_idempotent (w : Window) (d1 d2 : Int) (h1 : 0 < d1) (h2 : 0 < d2) :
    schedule_hide d2 (schedule_hide d1 w) = schedule_hide d1 w
    ∧ connected (schedule_hide d1 w) (schedule_hide d1 w).pending_hide = true
    ∧ (connected w w.pending_hide = false →
        ∃ t ∈ (schedule_hide d1 w).timeouts,
          (schedule_hide d1 w).pending_hide = some t.id ∧ t.interval = d1
            ∧ t.action = TimerAction.m_do_hide)
    ∧ schedule_show d2 (schedule_show d1 w) = schedule_show d1 w
    ∧ connected (schedule_show d1 w) (schedule_show d1 w).pending_show = true
    ∧ (connected w w.pending_show = false →
        ∃ t ∈ (schedule_show d1 w).timeouts,
          (schedule_show d1 w).pending_show = some t.id ∧ t.interval = d1
            ∧ t.action = TimerAction.m_do_show) := by
  have e1 : d1 ≠ 0 := by omega
  have e2 : d2 ≠ 0 := by omega
  refine ⟨schedule_hide_idem d1 d2 e1 e2 w, schedule_hide_delayed_connected d1 e1 w, ?_,
    schedule_show_idem d1 d2 e1 e2 w, schedule_show_delayed_connected d1 e1 w, ?_⟩
  · intro hc
    rw [schedule_hide_delayed d1 e1, disconnect_show_hide_not_connected w hc]
    exact ⟨_, List.mem_append_right _ (List.mem_singleton_self _), rfl, rfl, rfl⟩
  · intro hc
    rw [schedule_show_delayed d1 e1, disconnect_hide_show_not_connected w hc]
    exact ⟨_, List.mem_append_right _ (List.mem_singleton_self _), rfl, rfl, rfl⟩

/-- Witness of C9: delays 300 and then 700 on a fresh window. -/
theorem C9_schedule_idempotent_witness :
    schedule_hide 700 (schedule_hide 300 (constructor true 40))
      = schedule_hide 300 (constructor true 40)
    ∧ schedule_show 700 (schedule_show 300 (constructor true 40))
      = schedule_show 300 (constructor true 40)
    ∧ (∃ t ∈ (schedule_hide 300 (constructor true 40)).timeouts,
        (schedule_hide 300 (constructor true 40)).pending_hide = some t.id ∧ t.interval = 300
          ∧ t.action = TimerAction.m_do_hide) :=
  ⟨(C9_schedule_idempotent (constructor true 40) 300 700 (by decide) (by decide)).1,
   (C9_schedule_idempotent (constructor true 40) 300 700 (by decide) (by decide)).2.2.2.1,
   (C9_schedule_idempotent (constructor true 40) 300 700 (by decide) (by decide)).2.2.1
     (by decide)⟩

/-- C10: for every window, the leave callback of the panel hotspot is
`schedule_hide(300)` when `is_autohide()` is true, and leaves the whole window as
it is when `is_autohide()` is false. -/
theorem C10_panel_on_leave (w : Window) :
    (is_autohide w = true → panel_on_leave w = schedule_hide 300 w)
    ∧ (is_autohide w = false → panel_on_leave w = w) := by
  constructor <;> intro h <;> simp [panel_on_leave, h]

/-- Witness of C10: the pointer leaves the panel of a window in autohide mode, and
of a fresh window. -/
theorem C10_panel_on_leave_witness :
    panel_on_leave (increase_autohide (constructor true 40))
      = schedule_hide 300 (increase_autohide (constructor true 40))
    ∧ panel_on_leave (constructor true 40) = constructor true 40 :=
  ⟨(C10_panel_on_leave (increase_autohide (constructor true 40))).1 (by decide),
   (C10_panel_on_leave (constructor true 40)).2 (by decide)⟩

/-- C11: for every window, whatever the autohide counter is, the enter callback of
the edge hotspot gives exactly the window `schedule_show(0)` gives: `pending_hide`
is not connected and the target of the transition is 0, the counter is left
alone; the leave callback of the edge hotspot changes nothing. -/
theorem C11_edge_hotspot_callbacks (w : Window) :
    edge_on_enter w = schedule_show 0 w
    ∧ connected (edge_on_enter w) (edge_on_enter w).pending_hide = false
    ∧ (edge_on_enter w).transition.end_value = 0
    ∧ (edge_on_enter w).autohide_counter = w.autohide_counter
    ∧ edge_on_leave w = w := by
  refine ⟨rfl, ?_, ?_, ?_, rfl⟩
  · show connected (schedule_show 0 w) (schedule_show 0 w).pending_hide = false
    rw [schedule_show_pending_hide]; rfl
  · show (schedule_show 0 w).transition.end_value = 0
    rw [schedule_show_zero_eq]; rfl
  · exact schedule_show_counter 0 w

/-- C12, as stated, fails for a duration option of 0: 150 ms into a hide of a
window of height 40 the progress is -20, and right after
`set_animation_duration` with the value 0 the new transition is already over and
its progress is the end value -40. -/
theorem C12_counterexample :
    (run [Event.schedule_hide 0, Event.advance 150]
        (constructor true 40)).transition.progress
      (run [Event.schedule_hide 0, Event.advance 150] (constructor true 40)).now = -20
    ∧ (set_animation_duration 0
        (run [Event.schedule_hide 0, Event.advance 150] (constructor true 40))).transition.progress
      (set_animation_duration 0
        (run [Event.schedule_hide 0, Event.advance 150] (constructor true 40))).now = -40 := by
  obtain ⟨ht, hn⟩ := hide_then_wait_state
  constructor
  · rw [ht, hn]
    norm_num [wf_duration.progress, wf_duration.running]
  · simp only [set_animation_duration, ht, hn]
    norm_num [wf_duration.progress, wf_duration.running, wf_duration.start]

/-- C12, amended: for every transition and every new duration,
`set_animation_duration` replaces the transition by one that starts now, whose
start value is the progress of the old one at the call and whose end value is the
old end value. The progress right after the call equals the progress right before
it when the new duration is positive or the old transition was over; when the new
duration is not positive the new transition is over at once and its progress is
the end value. -/
theorem C12_set_animation_duration (w : Window) (d : Int) :
    (set_animation_duration d w).transition.start_value = w.transition.progress w.now
    ∧ (set_animation_duration d w).transition.end_value = w.transition.end_value
    ∧ (set_animation_duration d w).transition.duration = d
    ∧ (set_animation_duration d w).transition.start_time = w.now
    ∧ (set_animation_duration d w).now = w.now
    ∧ (0 < d →
        (set_animation_duration d w).transition.progress (set_animation_duration d w).now
          = w.transition.progress w.now)
    ∧ (w.transition.running w.now = false →
        (set_animation_duration d w).transition.progress (set_animation_duration d w).now
          = w.transition.progress w.now)
    ∧ (d ≤ 0 →
        (set_animation_duration d w).transition.progress (set_animation_duration d w).now
          = w.transition.end_value) := by
  have h1 : 0 < d →
      (set_animation_duration d w).transition.progress (set_animation_duration d w).now
        = w.transition.progress w.now := by
    intro hd
    exact progress_at_start _ _ _ _ hd
  have h3 : d ≤ 0 →
      (set_animation_duration d w).transition.progress (set_animation_duration d w).now
        = w.transition.end_value := by
    intro hd
    have : ¬ (0 < d) := by omega
    simp [set_animation_duration, wf_duration.progress, wf_duration.running,
      wf_duration.start, this]
  refine ⟨rfl, rfl, rfl, rfl, rfl, h1, ?_, h3⟩
  intro hr
  by_cases hd : 0 < d
  · exact h1 hd
  · rw [h3 (by omega), progress_not_running _ _ hr]

/-- Witness of C12 (amended): the duration changes to 500 ms on a fresh window,
and to 0 on it. -/
theorem C12_set_animation_duration_witness :
    (set_animation_duration 500 (constructor true 40)).transition.progress
        (set_animation_duration 500 (constructor true 40)).now
      = (constructor true 40).transition.progress (constructor true 40).now
    ∧ (set_animation_duration 0 (constructor true 40)).transition.progress
        (set_animation_duration 0 (constructor true 40)).now
      = (constructor true 40).transition.end_value :=
  ⟨(C12_set_animation_duration (constructor true 40) 500).2.2.2.2.2.1 (by decide),
   (C12_set_animation_duration (constructor true 40) 0).2.2.2.2.2.2.2 (by decide)⟩

/-- C13: for every window, flag and allocated height, `set_auto_exclusive_zone`
issues the exclusive-zone call of the toolkit exactly when the target (the height
when the flag is set, else 0) differs from `last_zone`; afterwards `last_zone` is
the target, and a second call with the same flag and height changes nothing, so
it issues no call. -/
theorem C13_set_auto_exclusive_zone (w : Window) (has_zone : Bool) :
    (set_auto_exclusive_zone has_zone w).calls
      = (if w.last_zone ≠ (if has_zone then w.allocated_height else 0)
         then w.calls ++ [ToolkitCall.set_exclusive_zone
                (if has_zone then w.allocated_height else 0)]
         else w.calls)
    ∧ (set_auto_exclusive_zone has_zone w).last_zone
        = (if has_zone then w.allocated_height else 0)
    ∧ (set_auto_exclusive_zone has_zone w).allocated_height = w.allocated_height
    ∧ set_auto_exclusive_zone has_zone (set_auto_exclusive_zone has_zone w)
        = set_auto_exclusive_zone has_zone w := by
  unfold set_auto_exclusive_zone
  simp only []
  by_cases h : w.last_zone ≠ (if has_zone = true then w.allocated_height else 0)
  · simp only [if_pos h, ne_eq, not_true_eq_false, if_false, and_self]
  · simp only [if_neg h]
    have h' : w.last_zone = (if has_zone = true then w.allocated_height else 0) := by
      simpa using h
    simp only [ne_eq, h', not_true_eq_false, if_false, and_self, true_and]

/-- C14: for every value of the position option and every earlier state of the
anchors, after `update_position()` the top anchor is set exactly when the anchor
edge of the position is the top edge, the bottom anchor exactly when it is the
bottom edge, and exactly one of the two is set: the one of the resolved
position. -/
theorem C14_update_position_anchors (w : Window) :
    (update_position w).anchor_top
        = decide (get_anchor_edge w.m_position.value = some GtkLayerShellEdge.TOP)
    ∧ (update_position w).anchor_bottom
        = decide (get_anchor_edge w.m_position.value = some GtkLayerShellEdge.BOTTOM)
    ∧ (update_position w).anchor_top = !(update_position w).anchor_bottom
    ∧ ((update_position w).anchor_top = true ↔
        check_position w.m_position.value = WF_WINDOW_POSITION_TOP)
    ∧ ((update_position w).anchor_bottom = true ↔
        check_position w.m_position.value = WF_WINDOW_POSITION_BOTTOM) := by
  obtain ⟨h1, h2⟩ := update_position_anchors w
  rw [h1, h2]
  by_cases h : check_position w.m_position.value = WF_WINDOW_POSITION_TOP
  · rw [get_anchor_edge_top _ h]
    simp [h, bottom_ne_top.symm]
  · have hb : check_position w.m_position.value = WF_WINDOW_POSITION_BOTTOM := by
      have := get_anchor_edge_bottom _ h
      unfold get_anchor_edge at this
      simp only [h, if_false] at this
      by_contra hc
      simp [hc] at this
    rw [get_anchor_edge_bottom _ h]
    simp [h, hb, bottom_ne_top]

/-- C15: `set_position` fails exactly when the option it is given is null. The
window as the failing call leaves it is the window as it was: `assert(position)`
is the first statement, so at the failure the position option, the
subscriptions, the anchors, the transition, both connections, the timeouts and
the call log are untouched. With an option the call unsubscribes from the old
option, stores and subscribes to the new one and runs `update_position`. -/
theorem C15_set_position_null (w : Window) (position : Option wf_option) :
    (set_position position w = none ↔ position = none)
    ∧ (set_position none w).getD w = w
    ∧ (∀ p : wf_option,
        set_position (some p) w
          = some (update_position
              { w with
                  m_position := p,
                  subscribed :=
                    w.subscribed.filter (fun i => i != w.m_position.id) ++ [p.id] }))
    ∧ set_position position w = (set_position_outcome position w).toOption
    ∧ ((∃ v, set_position_outcome position w = Except.error v) ↔ position = none)
    ∧ set_position_outcome none w = Except.error w
    ∧ (∀ v, set_position_outcome position w = Except.error v →
        v.m_position = w.m_position ∧ v.subscribed = w.subscribed
        ∧ v.anchor_top = w.anchor_top ∧ v.anchor_bottom = w.anchor_bottom
        ∧ v.transition = w.transition
        ∧ v.pending_show = w.pending_show ∧ v.pending_hide = w.pending_hide
        ∧ v.timeouts = w.timeouts ∧ v.calls = w.calls ∧ v = w)
    ∧ (∀ p : wf_option,
        set_position_outcome (some p) w
          = Except.ok (update_position
              { w with
                  m_position := p,
                  subscribed :=
                    w.subscribed.filter (fun i => i != w.m_position.id) ++ [p.id] })) := by
  refine ⟨?_, rfl, fun p => rfl, set_position_outcome_agrees position w, ?_, rfl, ?_,
    fun p => rfl⟩
  · cases position with
    | none => simp [set_position]
    | some p => simp [set_position]
  · cases position with
    | none => simp [set_position_outcome]
    | some p => simp [set_position_outcome]
  · intro v hv
    cases position with
    | none =>
      have e : w = v := by
        simpa [set_position_outcome] using hv
      subst e
      exact ⟨rfl, rfl, rfl, rfl, rfl, rfl, rfl, rfl, rfl, rfl⟩
    | some p => simp [set_position_outcome] at hv

/-- C16, as stated, fails: in a window where a show is already pending,
`update_position()` arms no show timer of 16 ms. After `schedule_show(500)` the
pending 500 ms timer stays the only live timeout; and when the position is set
twice, 10 ms apart, the second call arms nothing either: the only live timeout is
the one of the first call, due at 16 ms and not at 26 ms. -/
theorem C16_counterexample :
    connected (schedule_show 500 (constructor true 40))
      (schedule_show 500 (constructor true 40)).pending_show = true
    ∧ connected (update_position (schedule_show 500 (constructor true 40)))
      (update_position (schedule_show 500 (constructor true 40))).pending_show = true
    ∧ (update_position (schedule_show 500 (constructor true 40))).timeouts
      = [{ id := 0, interval := 500, action := TimerAction.m_do_show, due := 500 }]
    ∧ (run [Event.set_position { id := 1, value := "top" }, Event.advance 10]
        (constructor true 40)).now = 10
    ∧ (update_position
        (run [Event.set_position { id := 1, value := "top" }, Event.advance 10]
          (constructor true 40))).timeouts
      = [{ id := 0, interval := 16, action := TimerAction.m_do_show, due := 16 }] := by
  refine ⟨by decide, by decide, by decide, by decide, by decide⟩

/-- C16, amended: for every window with allocated height h, `update_position()`
sets start and end value of the transition to -h and performs
`schedule_show(16)`: `pending_hide` is cancelled, and if a show is then still
pending it is kept as it is and no show timer is armed, otherwise a show timer of
16 ms is armed; in every reachable window a show that was pending before the call
is kept. If `is_autohide()` is true the hide timer of 1000 ms is armed in
addition, whose callback is `schedule_hide(0)`; if `is_autohide()` is false
`pending_hide` is not connected after the call. In both cases the live timeouts
after the call are given exactly. -/
theorem C16_update_position (w : Window) :
    (update_position w).transition.start_value = ((-w.allocated_height : Int) : ℚ)
    ∧ (update_position w).transition.end_value = ((-w.allocated_height : Int) : ℚ)
    ∧ connected (update_position w) (update_position w).pending_show = true
    ∧ (connected w w.pending_show = false →
        ∃ t ∈ (update_position w).timeouts,
          (update_position w).pending_show = some t.id ∧ t.interval = 16
            ∧ t.action = TimerAction.m_do_show)
    ∧ (is_autohide w = true →
        ∃ t ∈ (update_position w).timeouts,
          (update_position w).pending_hide = some t.id ∧ t.interval = 1000
            ∧ t.action = TimerAction.uncertain_hide
            ∧ ∀ v : Window, run_action t.action v = schedule_hide 0 v)
    ∧ (is_autohide w = false →
        connected (update_position w) (update_position w).pending_hide = false)
    ∧ (connected (disconnect_hide w) w.pending_show = true →
        (update_position w).pending_show = w.pending_show
        ∧ (update_position w).timeouts
            = (disconnect_hide w).timeouts ++
                (if is_autohide w then [fallback_hide w.next_timeout w.now] else [])
        ∧ (update_position w).next_timeout
            = w.next_timeout + (if is_autohide w then 1 else 0))
    ∧ (connected (disconnect_hide w) w.pending_show = false →
        (update_position w).pending_show = some w.next_timeout
        ∧ (update_position w).timeouts
            = (disconnect_hide w).timeouts ++ [settle_show w.next_timeout w.now] ++
                (if is_autohide w then [fallback_hide (w.next_timeout + 1) w.now] else [])
        ∧ (update_position w).next_timeout
            = w.next_timeout + 1 + (if is_autohide w then 1 else 0))
    ∧ (w.pending_show ≠ w.pending_hide →
        connected (disconnect_hide w) w.pending_show = connected w w.pending_show)
    ∧ (Reachable w → connected w w.pending_show = true →
        (update_position w).pending_show = w.pending_show
        ∧ (update_position w).timeouts
            = (disconnect_hide w).timeouts ++
                (if is_autohide w then [fallback_hide w.next_timeout w.now] else [])
        ∧ (∀ t ∈ (update_position w).timeouts,
            t.action = TimerAction.m_do_show → t ∈ w.timeouts)) := by
  have hx := update_position_exact w
  have ht := update_position_transition w
  refine ⟨by rw [ht], by rw [ht], ?_, ?_, ?_, ?_, hx.1, hx.2,
    connected_show_after_disconnect_hide w, ?_⟩
  · rw [update_position_eq]
    generalize setup_hotspot _ = v
    exact (m_show_uncertain_timers v).1
  · rw [update_position_eq]
    generalize hv : setup_hotspot _ = v
    have hview : timer_view v = timer_view w := by
      rw [← hv, timer_view_setup_hotspot]
      rfl
    simp only [timer_view, Prod.mk.injEq] at hview
    obtain ⟨e1, _, e3, _, _⟩ := hview
    have hcs : connected v v.pending_show = connected w w.pending_show := by
      simp only [connected, e1, e3]
    have m2 := (m_show_uncertain_timers v).2.1
    rw [hcs] at m2
    exact m2
  · rw [update_position_eq]
    generalize hv : setup_hotspot _ = v
    have hview : timer_view v = timer_view w := by
      rw [← hv, timer_view_setup_hotspot]
      rfl
    simp only [timer_view, Prod.mk.injEq] at hview
    obtain ⟨_, _, _, _, e5⟩ := hview
    have hau : is_autohide v = is_autohide w := by
      simp only [is_autohide, e5]
    have m3 := (m_show_uncertain_timers v).2.2.1
    rw [hau] at m3
    intro h
    obtain ⟨t, ht1, ht2, ht3, ht4⟩ := m3 h
    refine ⟨t, ht1, ht2, ht3, ht4, ?_⟩
    intro x
    rw [ht4]
    rfl
  · rw [update_position_eq]
    generalize hv : setup_hotspot _ = v
    have hview : timer_view v = timer_view w := by
      rw [← hv, timer_view_setup_hotspot]
      rfl
    simp only [timer_view, Prod.mk.injEq] at hview
    obtain ⟨_, _, _, _, e5⟩ := hview
    have hau : is_autohide v = is_autohide w := by
      simp only [is_autohide, e5]
    have m4 := (m_show_uncertain_timers v).2.2.2
    rw [hau] at m4
    exact m4
  · intro hr hs
    obtain ⟨k1, k2, _⟩ := hx.1 (reachable_show_survives_disconnect_hide w hr hs)
    refine ⟨k1, k2, ?_⟩
    intro t ht ha
    rw [k2] at ht
    rcases List.mem_append.mp ht with ht | ht
    · exact disconnect_hide_timeouts_sub w t ht
    · exfalso
      split at ht
      · rw [List.mem_singleton.mp ht] at ha
        simp [fallback_hide] at ha
      · cases ht

/-- Witness of C16 (amended): a position update in autohide mode, one on a fresh
window, and one while a show of 500 ms is pending, which is kept. -/
theorem C16_update_position_witness :
    (∃ t ∈ (update_position (increase_autohide (constructor true 40))).timeouts,
        (update_position (increase_autohide (constructor true 40))).pending_show = some t.id
          ∧ t.interval = 16 ∧ t.action = TimerAction.m_do_show)
    ∧ (∃ t ∈ (update_position (increase_autohide (constructor true 40))).timeouts,
        (update_position (increase_autohide (constructor true 40))).pending_hide = some t.id
          ∧ t.interval = 1000 ∧ t.action = TimerAction.uncertain_hide
          ∧ ∀ v : Window, run_action t.action v = schedule_hide 0 v)
    ∧ connected (update_position (constructor true 40))
        (update_position (constructor true 40)).pending_hide = false
    ∧ (update_position (schedule_show 500 (constructor true 40))).pending_show
        = (schedule_show 500 (constructor true 40)).pending_show
    ∧ (update_position (run [Event.schedule_show 500] (constructor true 40))).timeouts
        = (disconnect_hide (run [Event.schedule_show 500] (constructor true 40))).timeouts ++
            (if is_autohide (run [Event.schedule_show 500] (constructor true 40))
             then [fallback_hide (run [Event.schedule_show 500] (constructor true 40)).next_timeout
                    (run [Event.schedule_show 500] (constructor true 40)).now]
             else [])
    ∧ (update_position (constructor true 40)).pending_show
        = some (constructor true 40).next_timeout :=
  ⟨(C16_update_position (increase_autohide (constructor true 40))).2.2.2.1 (by decide),
   (C16_update_position (increase_autohide (constructor true 40))).2.2.2.2.1 (by decide),
   (C16_update_position (constructor true 40)).2.2.2.2.2.1 (by decide),
   ((C16_update_position (schedule_show 500 (constructor true 40))).2.2.2.2.2.2.1
      (by decide)).1,
   ((C16_update_position (run [Event.schedule_show 500] (constructor true 40))).2.2.2.2.2.2.2.2.2
      ⟨true, 40, [Event.schedule_show 500], rfl⟩ (by decide)).2.1,
   ((C16_update_position (constructor true 40)).2.2.2.2.2.2.2.1 (by decide)).1⟩

/-- C17: for every window with no hide pending and every delay d > 0,
`schedule_hide(d)` leaves `pending_show` not connected, leaves the transition
unchanged and arms `pending_hide` with a new timer of d ms whose callback is
`m_do_hide`. In a window whose live timeouts carry identifiers handed out before
(every reachable window is one), that timer does not fire before d ms have
passed, and when it fires the target of the transition is minus the allocated
height, `pending_hide` is not connected and the timer is gone. The same holds for
`schedule_show(d)` with no show pending, `m_do_show` and the target 0. -/
theorem C17_delayed_schedule (w : Window) (d : Int) (hd : 0 < d) :
    (connected w w.pending_hide = false →
      connected (schedule_hide d w) (schedule_hide d w).pending_show = false
      ∧ (schedule_hide d w).transition = w.transition
      ∧ (schedule_hide d w).pending_hide = some w.next_timeout
      ∧ connected (schedule_hide d w) (schedule_hide d w).pending_hide = true
      ∧ ({ id := w.next_timeout, interval := d, action := TimerAction.m_do_hide,
           due := w.now + d.toNat } : Timeout) ∈ (schedule_hide d w).timeouts
      ∧ (timers_fresh w → ∀ dt : Nat,
          (dt < d.toNat →
            run [Event.advance dt, Event.timeout w.next_timeout] (schedule_hide d w)
              = run [Event.advance dt] (schedule_hide d w))
          ∧ (d.toNat ≤ dt →
            (run [Event.advance dt, Event.timeout w.next_timeout]
                (schedule_hide d w)).transition.end_value = ((-w.allocated_height : Int) : ℚ)
            ∧ connected (run [Event.advance dt, Event.timeout w.next_timeout] (schedule_hide d w))
                (run [Event.advance dt, Event.timeout w.next_timeout]
                  (schedule_hide d w)).pending_hide = false
            ∧ ∀ t ∈ (run [Event.advance dt, Event.timeout w.next_timeout]
                  (schedule_hide d w)).timeouts, t.id ≠ w.next_timeout)))
    ∧ (connected w w.pending_show = false →
      connected (schedule_show d w) (schedule_show d w).pending_hide = false
      ∧ (schedule_show d w).transition = w.transition
      ∧ (schedule_show d w).pending_show = some w.next_timeout
      ∧ connected (schedule_show d w) (schedule_show d w).pending_show = true
      ∧ ({ id := w.next_timeout, interval := d, action := TimerAction.m_do_show,
           due := w.now + d.toNat } : Timeout) ∈ (schedule_show d w).timeouts
      ∧ (timers_fresh w → ∀ dt : Nat,
          (dt < d.toNat →
            run [Event.advance dt, Event.timeout w.next_timeout] (schedule_show d w)
              = run [Event.advance dt] (schedule_show d w))
          ∧ (d.toNat ≤ dt →
            (run [Event.advance dt, Event.timeout w.next_timeout]
                (schedule_show d w)).transition.end_value = 0
            ∧ connected (run [Event.advance dt, Event.timeout w.next_timeout] (schedule_show d w))
                (run [Event.advance dt, Event.timeout w.next_timeout]
                  (schedule_show d w)).pending_show = false
            ∧ ∀ t ∈ (run [Event.advance dt, Event.timeout w.next_timeout]
                  (schedule_show d w)).timeouts, t.id ≠ w.next_timeout))) := by
  have hd0 : d ≠ 0 := by omega
  constructor
  · intro hc
    refine ⟨?_, (schedule_hide_delayed_transition d hd0 w).1, ?_,
      schedule_hide_delayed_connected d hd0 w, ?_,
      fun hf => delayed_hide_fires w d hd hf hc⟩
    · rw [schedule_hide_pending_show]; rfl
    · rw [schedule_hide_arms d hd0 w hc]
    · rw [schedule_hide_arms d hd0 w hc]
      exact List.mem_append_right _ (List.mem_singleton_self _)
  · intro hc
    refine ⟨?_, (schedule_show_delayed_transition d hd0 w).1, ?_,
      schedule_show_delayed_connected d hd0 w, ?_,
      fun hf => delayed_show_fires w d hd hf hc⟩
    · rw [schedule_show_pending_hide]; rfl
    · rw [schedule_show_arms d hd0 w hc]
    · rw [schedule_show_arms d hd0 w hc]
      exact List.mem_append_right _ (List.mem_singleton_self _)

/-- Witness of C17: a hide scheduled in 300 ms on a fresh window fires after
300 ms and not after 299 ms; a show scheduled in 16 ms fires after 20 ms. -/
theorem C17_delayed_schedule_witness :
    (schedule_hide 300 (constructor true 40)).pending_hide = some 0
    ∧ (run [Event.advance 300, Event.timeout 0]
        (schedule_hide 300 (constructor true 40))).transition.end_value = ((-40 : Int) : ℚ)
    ∧ run [Event.advance 299, Event.timeout 0] (schedule_hide 300 (constructor true 40))
        = run [Event.advance 299] (schedule_hide 300 (constructor true 40))
    ∧ (run [Event.advance 20, Event.timeout 0]
        (schedule_show 16 (constructor true 40))).transition.end_value = 0 :=
  ⟨((C17_delayed_schedule (constructor true 40) 300 (by decide)).1 (by decide)).2.2.1,
   (((((C17_delayed_schedule (constructor true 40) 300 (by decide)).1 (by decide)).2.2.2.2.2
      (timers_fresh_constructor true 40)) 300).2 (by decide)).1,
   ((((C17_delayed_schedule (constructor true 40) 300 (by decide)).1 (by decide)).2.2.2.2.2
      (timers_fresh_constructor true 40)) 299).1 (by decide),
   (((((C17_delayed_schedule (constructor true 40) 16 (by decide)).2 (by decide)).2.2.2.2.2
      (timers_fresh_constructor true 40)) 20).2 (by decide)).1⟩

/-- C18: for every window, the enter callback of the panel hotspot leaves
`pending_hide` not connected and changes nothing but the hide connection and the
timeout behind it: `pending_show`, the transition, the autohide counter, the
anchors and the log of toolkit calls (so no margin update) are as before, and
every live timeout other than the pending hide stays live. -/
theorem C18_panel_on_enter (w : Window) :
    connected (panel_on_enter w) (panel_on_enter w).pending_hide = false
    ∧ panel_on_enter w =
        { w with timeouts := (panel_on_enter w).timeouts,
                 pending_hide := (panel_on_enter w).pending_hide }
    ∧ (panel_on_enter w).pending_show = w.pending_show
    ∧ (panel_on_enter w).transition = w.transition
    ∧ (panel_on_enter w).autohide_counter = w.autohide_counter
    ∧ (panel_on_enter w).anchor_top = w.anchor_top
    ∧ (panel_on_enter w).anchor_bottom = w.anchor_bottom
    ∧ (panel_on_enter w).calls = w.calls
    ∧ (∀ t, t ∈ (panel_on_enter w).timeouts ↔ t ∈ w.timeouts ∧ w.pending_hide ≠ some t.id) := by
  by_cases hc : connected w w.pending_hide = true
  · have e : panel_on_enter w = disconnect_hide w := by simp [panel_on_enter, hc]
    rw [e, disconnect_hide_frame]
    refine ⟨rfl, rfl, rfl, rfl, rfl, rfl, rfl, rfl, ?_⟩
    intro t
    show t ∈ (disconnect_hide w).timeouts ↔ _
    unfold disconnect_hide
    cases hp : w.pending_hide with
    | none => rw [hp] at hc; simp [connected] at hc
    | some id =>
      simp only [remove_timeout, List.mem_filter, bne_iff_ne, ne_eq, Option.some.injEq]
      constructor
      · rintro ⟨h1, h2⟩
        exact ⟨h1, fun h => h2 h.symm⟩
      · rintro ⟨h1, h2⟩
        exact ⟨h1, fun h => h2 h.symm⟩
  · have hc' : connected w w.pending_hide = false := by simpa using hc
    have e : panel_on_enter w = w := by simp [panel_on_enter, hc']
    rw [e]
    refine ⟨hc', rfl, rfl, rfl, rfl, rfl, rfl, rfl, ?_⟩
    intro t
    constructor
    · intro ht
      refine ⟨ht, fun h => ?_⟩
      rw [h, connected_iff] at hc
      exact hc ⟨t, ht, rfl⟩
    · exact fun h => h.1

/-- C19 on its failing input: a window of height 40 on a valid output gets the
position top and then, at the same height, the position bottom. The resolved
position is bottom and the bottom anchor is set, but `setup_hotspot` returned
early on the unchanged height, so both hotspots are still on the top edge; only a
later change of the height moves them to the bottom edge. -/
theorem C19_hotspots_keep_old_edge :
    (run [Event.set_position { id := 1, value := "top" },
          Event.set_position { id := 2, value := "bottom" }]
        (constructor true 40)).output_valid = true
    ∧ check_position
        (run [Event.set_position { id := 1, value := "top" },
              Event.set_position { id := 2, value := "bottom" }]
          (constructor true 40)).m_position.value = WF_WINDOW_POSITION_BOTTOM
    ∧ (run [Event.set_position { id := 1, value := "top" },
            Event.set_position { id := 2, value := "bottom" }]
        (constructor true 40)).anchor_bottom = true
    ∧ (run [Event.set_position { id := 1, value := "top" },
            Event.set_position { id := 2, value := "bottom" }]
        (constructor true 40)).edge_hotspot
        = some { edge := HotspotEdge.TOP, threshold := 20, timeout := 300 }
    ∧ (run [Event.set_position { id := 1, value := "top" },
            Event.set_position { id := 2, value := "bottom" }]
        (constructor true 40)).panel_hotspot
        = some { edge := HotspotEdge.TOP, threshold := 40, timeout := 0 }
    ∧ (run [Event.set_position { id := 1, value := "top" },
            Event.set_position { id := 2, value := "bottom" }, Event.size_allocate 41]
        (constructor true 40)).edge_hotspot
        = some { edge := HotspotEdge.BOTTOM, threshold := 20, timeout := 300 } := by
  refine ⟨by decide, by decide, by decide, by decide, by decide, by decide⟩

/-- C20: in every reachable window no live timeout is orphaned. Every live
timeout that hides is the one `pending_hide` refers to and every live timeout
that shows is the one `pending_show` refers to, identifiers are not repeated, so
at most one hide timer and at most one show timer are live. The assignments to a
connection find it not connected: `schedule_hide` and `schedule_show` assign
nothing when their connection is connected, and `m_show_uncertain` assigns
`pending_hide` right after `schedule_show(16)` disconnected it. -/
theorem C20_no_orphaned_timer (w : Window) (hr : Reachable w) :
    (∀ t ∈ w.timeouts,
      (is_hide_timer t = true → w.pending_hide = some t.id)
      ∧ (is_show_timer t = true → w.pending_show = some t.id)
      ∧ (w.pending_hide = some t.id ∨ w.pending_show = some t.id))
    ∧ (w.timeouts.map Timeout.id).Nodup
    ∧ (w.timeouts.filter is_hide_timer).length ≤ 1
    ∧ (w.timeouts.filter is_show_timer).length ≤ 1
    ∧ (∀ d : Int, d ≠ 0 →
        connected (disconnect_show w) (disconnect_show w).pending_hide = true →
        schedule_hide d w = disconnect_show w)
    ∧ (∀ d : Int, d ≠ 0 →
        connected (disconnect_hide w) (disconnect_hide w).pending_show = true →
        schedule_show d w = disconnect_hide w)
    ∧ connected (schedule_show 16 w) (schedule_show 16 w).pending_hide = false := by
  have h := no_orphans_of_reachable w hr
  refine ⟨?_, h.1, ?_, ?_, ?_, ?_, m_show_uncertain_assigns_disconnected w⟩
  · intro t ht
    refine ⟨owned_hide w t (h.2 t ht), owned_show w t (h.2 t ht), ?_⟩
    rcases h.2 t ht with ⟨hs, _⟩ | ⟨hh, _⟩
    · exact Or.inr hs
    · exact Or.inl hh
  · apply at_most_one_of_same_id _ _ h.1
    intro a ha b hb hpa hpb
    have e1 := owned_hide w a (h.2 a ha) hpa
    have e2 := owned_hide w b (h.2 b hb) hpb
    rw [e1] at e2
    exact Option.some.inj e2
  · apply at_most_one_of_same_id _ _ h.1
    intro a ha b hb hpa hpb
    have e1 := owned_show w a (h.2 a ha) hpa
    have e2 := owned_show w b (h.2 b hb) hpb
    rw [e1] at e2
    exact Option.some.inj e2
  · intro d hd hc
    rw [schedule_hide_delayed d hd, if_pos hc]
  · intro d hd hc
    rw [schedule_show_delayed d hd, if_pos hc]

/-- Witness of C20: autohide on, two position changes, then the pointer leaves
the panel; a show and the fallback hide are live, one of each. -/
theorem C20_no_orphaned_timer_witness :
    Reachable (run [Event.increase_autohide, Event.set_position { id := 3, value := "top" },
        Event.set_position { id := 4, value := "bottom" }, Event.panel_leave]
      (constructor true 25))
    ∧ ((run [Event.increase_autohide, Event.set_position { id := 3, value := "top" },
        Event.set_position { id := 4, value := "bottom" }, Event.panel_leave]
      (constructor true 25)).timeouts.filter is_hide_timer).length ≤ 1 :=
  ⟨⟨true, 25, _, rfl⟩,
   (C20_no_orphaned_timer
    (run [Event.increase_autohide, Event.set_position { id := 3, value := "top" },
        Event.set_position { id := 4, value := "bottom" }, Event.panel_leave]
      (constructor true 25)) ⟨true, 25, _, rfl⟩).2.2.1⟩

end WfShell
